import Mathlib

/-!
Verification of the core geometric kernel of the TIOGA overset-grid library
(`src/funcs.cpp` and the direct-cut device code).

Modelling conventions.  The C++ kernels operate on IEEE doubles; the
embedding works over the exact rationals `ℚ`.  Comparisons of Euclidean
norms are carried out on squared norms, which is equivalent because both
sides of every such comparison in the source are nonnegative and squaring
is monotone on nonnegatives.  The square roots that appear inside the
triangle-triangle kernel (normalisation of plane normals) are modelled by
`ratSqrt`, which agrees with the real square root exactly on perfect
rational squares; every concrete evaluation below only takes square roots
of perfect squares.  Imperative writes into output arrays are modelled by
pure lists, with writes-at-computed-offsets rendered as concatenation of
the blocks the writes fill, in position order.
-/

namespace tg_funcs

attribute [local semireducible] Rat.add Rat.mul Rat.inv Rat.sub

/-- Structured (lexicographic) index of node `(x,y,z)` on an `m×m×m` grid:
`x + m*(y + m*z)`, exactly the index expressions of
`gmsh_to_structured_hex` (funcs.cpp:427-667). -/
def encH (m x y z : ℕ) : ℕ := x + m * (y + m * z)

/-- The 8 corner entries written at the head of recursion level `i` of
`gmsh_to_structured_hex` (funcs.cpp:453-461); `i2 = m-1-i` is inlined. -/
def hexCorners (m i : ℕ) : List ℕ :=
  [encH m i i i, encH m (m-1-i) i i, encH m (m-1-i) (m-1-i) i, encH m i (m-1-i) i,
   encH m i i (m-1-i), encH m (m-1-i) i (m-1-i), encH m (m-1-i) (m-1-i) (m-1-i),
   encH m i (m-1-i) (m-1-i)]

/-- The 12 edge runs of recursion level `i` of `gmsh_to_structured_hex`,
laid out in position order: run `f` occupies positions `nPts + f*nSide2 + j`
in the source (funcs.cpp:465-484), so runs 0..11 appear consecutively.
`i2 = m-1-i` and `nSide2 = m-2*(i+1)` are inlined. -/
def hexEdges (m i : ℕ) : List ℕ :=
  (List.range (m - 2*(i+1))).map (fun j => encH m (i+1+j) (i) (i))
  ++ (List.range (m - 2*(i+1))).map (fun j => encH m (i) (i+1+j) (i))
  ++ (List.range (m - 2*(i+1))).map (fun j => encH m (i) (i) (i+1+j))
  ++ (List.range (m - 2*(i+1))).map (fun j => encH m (m-1-i) (i+1+j) (i))
  ++ (List.range (m - 2*(i+1))).map (fun j => encH m (m-1-i) (i) (i+1+j))
  ++ (List.range (m - 2*(i+1))).map (fun j => encH m (m-1-i-1-j) (m-1-i) (i))
  ++ (List.range (m - 2*(i+1))).map (fun j => encH m (m-1-i) (m-1-i) (i+1+j))
  ++ (List.range (m - 2*(i+1))).map (fun j => encH m (i) (m-1-i) (i+1+j))
  ++ (List.range (m - 2*(i+1))).map (fun j => encH m (i+1+j) (i) (m-1-i))
  ++ (List.range (m - 2*(i+1))).map (fun j => encH m (i) (i+1+j) (m-1-i))
  ++ (List.range (m - 2*(i+1))).map (fun j => encH m (m-1-i) (i+1+j) (m-1-i))
  ++ (List.range (m - 2*(i+1))).map (fun j => encH m (m-1-i-1-j) (m-1-i) (m-1-i))

/-- Bottom face of recursion level `i` of `gmsh_to_structured_hex`:
the quad recursion of funcs.cpp:492-518 (z = i), one shell per `j0` (corners, then
the four edge runs), plus the centre node when the remaining side
length `nSide2 = m - 2*(i+1)` is odd.  The source locals are inlined:
`j = j0+i+1`, `j2 = i+1+(nSide2-1)-j0`, `nSide3 = nSide2-2*(j0+1)`. -/
def faceBottom (m i : ℕ) : List ℕ :=
  (List.range ((m - 2*(i+1)) / 2)).flatMap (fun j0 =>
    [encH m (j0+i+1) (j0+i+1) i, encH m (j0+i+1) (i+1+(m-2*(i+1)-1)-j0) i, encH m (i+1+(m-2*(i+1)-1)-j0) (i+1+(m-2*(i+1)-1)-j0) i, encH m (i+1+(m-2*(i+1)-1)-j0) (j0+i+1) i]
      ++ (List.range (m - 2*(i+1) - 2*(j0+1))).map (fun k => encH m (j0+i+1) (j0+i+1+1+k) i)
      ++ (List.range (m - 2*(i+1) - 2*(j0+1))).map (fun k => encH m (j0+i+1+1+k) (i+1+(m-2*(i+1)-1)-j0) i)
      ++ (List.range (m - 2*(i+1) - 2*(j0+1))).map (fun k => encH m (i+1+(m-2*(i+1)-1)-j0) (i+1+(m-2*(i+1)-1)-j0-1-k) i)
      ++ (List.range (m - 2*(i+1) - 2*(j0+1))).map (fun k => encH m (i+1+(m-2*(i+1)-1)-j0-1-k) (j0+i+1) i))
  ++ (if (m - 2*(i+1)) % 2 = 1 then [encH m (m/2) (m/2) i] else [])

/-- Front face of recursion level `i` of `gmsh_to_structured_hex`:
the quad recursion of funcs.cpp:520-546 (y = i), one shell per `j0` (corners, then
the four edge runs), plus the centre node when the remaining side
length `nSide2 = m - 2*(i+1)` is odd.  The source locals are inlined:
`j = j0+i+1`, `j2 = i+1+(nSide2-1)-j0`, `nSide3 = nSide2-2*(j0+1)`. -/
def faceFront (m i : ℕ) : List ℕ :=
  (List.range ((m - 2*(i+1)) / 2)).flatMap (fun j0 =>
    [encH m (j0+i+1) i (j0+i+1), encH m (i+1+(m-2*(i+1)-1)-j0) i (j0+i+1), encH m (i+1+(m-2*(i+1)-1)-j0) i (i+1+(m-2*(i+1)-1)-j0), encH m (j0+i+1) i (i+1+(m-2*(i+1)-1)-j0)]
      ++ (List.range (m - 2*(i+1) - 2*(j0+1))).map (fun k => encH m (j0+i+1+1+k) i (j0+i+1))
      ++ (List.range (m - 2*(i+1) - 2*(j0+1))).map (fun k => encH m (i+1+(m-2*(i+1)-1)-j0) i (j0+i+1+1+k))
      ++ (List.range (m - 2*(i+1) - 2*(j0+1))).map (fun k => encH m (i+1+(m-2*(i+1)-1)-j0-1-k) i (i+1+(m-2*(i+1)-1)-j0))
      ++ (List.range (m - 2*(i+1) - 2*(j0+1))).map (fun k => encH m (j0+i+1) i (i+1+(m-2*(i+1)-1)-j0-1-k)))
  ++ (if (m - 2*(i+1)) % 2 = 1 then [encH m (m/2) i (m/2)] else [])

/-- Left face of recursion level `i` of `gmsh_to_structured_hex`:
the quad recursion of funcs.cpp:548-574 (x = i), one shell per `j0` (corners, then
the four edge runs), plus the centre node when the remaining side
length `nSide2 = m - 2*(i+1)` is odd.  The source locals are inlined:
`j = j0+i+1`, `j2 = i+1+(nSide2-1)-j0`, `nSide3 = nSide2-2*(j0+1)`. -/
def faceLeft (m i : ℕ) : List ℕ :=
  (List.range ((m - 2*(i+1)) / 2)).flatMap (fun j0 =>
    [encH m i (j0+i+1) (j0+i+1), encH m i (j0+i+1) (i+1+(m-2*(i+1)-1)-j0), encH m i (i+1+(m-2*(i+1)-1)-j0) (i+1+(m-2*(i+1)-1)-j0), encH m i (i+1+(m-2*(i+1)-1)-j0) (j0+i+1)]
      ++ (List.range (m - 2*(i+1) - 2*(j0+1))).map (fun k => encH m i (j0+i+1) (j0+i+1+1+k))
      ++ (List.range (m - 2*(i+1) - 2*(j0+1))).map (fun k => encH m i (j0+i+1+1+k) (i+1+(m-2*(i+1)-1)-j0))
      ++ (List.range (m - 2*(i+1) - 2*(j0+1))).map (fun k => encH m i (i+1+(m-2*(i+1)-1)-j0) (i+1+(m-2*(i+1)-1)-j0-1-k))
      ++ (List.range (m - 2*(i+1) - 2*(j0+1))).map (fun k => encH m i (i+1+(m-2*(i+1)-1)-j0-1-k) (j0+i+1)))
  ++ (if (m - 2*(i+1)) % 2 = 1 then [encH m i (m/2) (m/2)] else [])

/-- Right face of recursion level `i` of `gmsh_to_structured_hex`:
the quad recursion of funcs.cpp:576-602 (x = m-1-i), one shell per `j0` (corners, then
the four edge runs), plus the centre node when the remaining side
length `nSide2 = m - 2*(i+1)` is odd.  The source locals are inlined:
`j = j0+i+1`, `j2 = i+1+(nSide2-1)-j0`, `nSide3 = nSide2-2*(j0+1)`. -/
def faceRight (m i : ℕ) : List ℕ :=
  (List.range ((m - 2*(i+1)) / 2)).flatMap (fun j0 =>
    [encH m (m-1-i) (j0+i+1) (j0+i+1), encH m (m-1-i) (i+1+(m-2*(i+1)-1)-j0) (j0+i+1), encH m (m-1-i) (i+1+(m-2*(i+1)-1)-j0) (i+1+(m-2*(i+1)-1)-j0), encH m (m-1-i) (j0+i+1) (i+1+(m-2*(i+1)-1)-j0)]
      ++ (List.range (m - 2*(i+1) - 2*(j0+1))).map (fun k => encH m (m-1-i) (j0+i+1+1+k) (j0+i+1))
      ++ (List.range (m - 2*(i+1) - 2*(j0+1))).map (fun k => encH m (m-1-i) (i+1+(m-2*(i+1)-1)-j0) (j0+i+1+1+k))
      ++ (List.range (m - 2*(i+1) - 2*(j0+1))).map (fun k => encH m (m-1-i) (i+1+(m-2*(i+1)-1)-j0-1-k) (i+1+(m-2*(i+1)-1)-j0))
      ++ (List.range (m - 2*(i+1) - 2*(j0+1))).map (fun k => encH m (m-1-i) (j0+i+1) (i+1+(m-2*(i+1)-1)-j0-1-k)))
  ++ (if (m - 2*(i+1)) % 2 = 1 then [encH m (m-1-i) (m/2) (m/2)] else [])

/-- Back face of recursion level `i` of `gmsh_to_structured_hex`:
the quad recursion of funcs.cpp:604-630 (y = m-1-i), one shell per `j0` (corners, then
the four edge runs), plus the centre node when the remaining side
length `nSide2 = m - 2*(i+1)` is odd.  The source locals are inlined:
`j = j0+i+1`, `j2 = i+1+(nSide2-1)-j0`, `nSide3 = nSide2-2*(j0+1)`. -/
def faceBack (m i : ℕ) : List ℕ :=
  (List.range ((m - 2*(i+1)) / 2)).flatMap (fun j0 =>
    [encH m (i+1+(m-2*(i+1)-1)-j0) (m-1-i) (j0+i+1), encH m (j0+i+1) (m-1-i) (j0+i+1), encH m (j0+i+1) (m-1-i) (i+1+(m-2*(i+1)-1)-j0), encH m (i+1+(m-2*(i+1)-1)-j0) (m-1-i) (i+1+(m-2*(i+1)-1)-j0)]
      ++ (List.range (m - 2*(i+1) - 2*(j0+1))).map (fun k => encH m (i+1+(m-2*(i+1)-1)-j0-1-k) (m-1-i) (j0+i+1))
      ++ (List.range (m - 2*(i+1) - 2*(j0+1))).map (fun k => encH m (j0+i+1) (m-1-i) (j0+i+1+1+k))
      ++ (List.range (m - 2*(i+1) - 2*(j0+1))).map (fun k => encH m (j0+i+1+1+k) (m-1-i) (i+1+(m-2*(i+1)-1)-j0))
      ++ (List.range (m - 2*(i+1) - 2*(j0+1))).map (fun k => encH m (i+1+(m-2*(i+1)-1)-j0) (m-1-i) (i+1+(m-2*(i+1)-1)-j0-1-k)))
  ++ (if (m - 2*(i+1)) % 2 = 1 then [encH m (m/2) (m-1-i) (m/2)] else [])

/-- Top face of recursion level `i` of `gmsh_to_structured_hex`:
the quad recursion of funcs.cpp:632-658 (z = m-1-i), one shell per `j0` (corners, then
the four edge runs), plus the centre node when the remaining side
length `nSide2 = m - 2*(i+1)` is odd.  The source locals are inlined:
`j = j0+i+1`, `j2 = i+1+(nSide2-1)-j0`, `nSide3 = nSide2-2*(j0+1)`. -/
def faceTop (m i : ℕ) : List ℕ :=
  (List.range ((m - 2*(i+1)) / 2)).flatMap (fun j0 =>
    [encH m (j0+i+1) (j0+i+1) (m-1-i), encH m (i+1+(m-2*(i+1)-1)-j0) (j0+i+1) (m-1-i), encH m (i+1+(m-2*(i+1)-1)-j0) (i+1+(m-2*(i+1)-1)-j0) (m-1-i), encH m (j0+i+1) (i+1+(m-2*(i+1)-1)-j0) (m-1-i)]
      ++ (List.range (m - 2*(i+1) - 2*(j0+1))).map (fun k => encH m (j0+i+1+1+k) (j0+i+1) (m-1-i))
      ++ (List.range (m - 2*(i+1) - 2*(j0+1))).map (fun k => encH m (i+1+(m-2*(i+1)-1)-j0) (j0+i+1+1+k) (m-1-i))
      ++ (List.range (m - 2*(i+1) - 2*(j0+1))).map (fun k => encH m (i+1+(m-2*(i+1)-1)-j0-1-k) (i+1+(m-2*(i+1)-1)-j0) (m-1-i))
      ++ (List.range (m - 2*(i+1) - 2*(j0+1))).map (fun k => encH m (j0+i+1) (i+1+(m-2*(i+1)-1)-j0-1-k) (m-1-i)))
  ++ (if (m - 2*(i+1)) % 2 = 1 then [encH m (m/2) (m/2) (m-1-i)] else [])

/-- One full recursion level of `gmsh_to_structured_hex`: corners, the 12
edge runs, then the six faces in the source order bottom, front, left,
right, back, top (funcs.cpp:451-659). -/
def hexLevel (m i : ℕ) : List ℕ :=
  hexCorners m i ++ hexEdges m i ++ faceBottom m i ++ faceFront m i
    ++ faceLeft m i ++ faceRight m i ++ faceBack m i ++ faceTop m i

/-- The full gmsh→structured node map for a hex of side `m` as a list in
external (gmsh) position order: all recursion levels, then the volume
centre node when `m` is odd (funcs.cpp:662-664 writes it at position
`nNodes-1`, the next free position). -/
def ghexSide (m : ℕ) : List ℕ :=
  (List.range (m / 2)).flatMap (hexLevel m) ++
    (if m % 2 = 1 then [encH m (m/2) (m/2) (m/2)] else [])

/-- Integer cube root by truncation, modelling `int nSide = cbrt(nNodes)`
with a correctly-rounded `cbrt`. -/
def natCbrt (n : ℕ) : ℕ := Nat.findGreatest (fun s => s^3 ≤ n) n

/-- `gmsh_to_structured_hex` (funcs.cpp:427-667): checks that `nNodes` is a
perfect cube and returns the gmsh→structured permutation; otherwise the
source raises `ThrowException`. -/
def gmsh_to_structured_hex (nNodes : ℕ) : Except String (List ℕ) :=
  let nSide := natCbrt nNodes
  if nSide * nSide * nSide = nNodes then .ok (ghexSide nSide)
  else .error "For Lagrange hex of order N, must have (N+1)^3 shape points."

/-- `reverse_map` (funcs.cpp:669-676).  Every slot `i` of the copy is
overwritten with `findFirst(map1, i)`.  `findFirst` is declared in
`funcs.hpp`, which is not under `src/`; modelled from the spec: "for every
structured index k, find the external position where it appears", i.e. the
first index at which `i` occurs in `map1`. -/
def reverse_map (map1 : List ℕ) : List ℕ :=
  (List.range map1.length).map (fun i => map1.indexOf i)

/-- `structured_to_gmsh_hex` (funcs.cpp:411-425): the reverse map of
`gmsh_to_structured_hex`.  The process-wide memo cache is a write-once
cache of a pure function of `nNodes`, so it is elided. -/
def structured_to_gmsh_hex (nNodes : ℕ) : Except String (List ℕ) :=
  (gmsh_to_structured_hex nNodes).map reverse_map

/-- Uniform 1-D Lagrange node list on `[-1,1]` (funcs.cpp:439-443 and
1041-1048): `xlist[i] = -1 + i*dxi` with `dxi = 2/(nSide-1)`. -/
def xlistQ (m : ℕ) : List ℚ :=
  (List.range m).map (fun i : ℕ => -1 + (i : ℚ) * (2 / ((m : ℚ) - 1)))

/-- `Lagrange` (funcs.cpp:80-91): value at `y` of the `mode`-th Lagrange
basis polynomial on the nodes `x_lag`, accumulated left-to-right exactly as
the source loop does. -/
def Lagrange (x_lag : List ℚ) (y : ℚ) (mode : ℕ) : ℚ :=
  (List.range x_lag.length).foldl
    (fun lag i =>
      if i ≠ mode then lag * ((y - x_lag.getD i 0) / (x_lag.getD mode 0 - x_lag.getD i 0))
      else lag) 1

/-- `dLagrange` (funcs.cpp:93-120): derivative at `y` of the `mode`-th
Lagrange basis polynomial on the nodes `x_lag`; the double loop of the
source is rendered as nested folds. -/
def dLagrange (x_lag : List ℚ) (y : ℚ) (mode : ℕ) : ℚ :=
  (List.range x_lag.length).foldl
    (fun dLag i =>
      if i ≠ mode then
        dLag +
          ((List.range x_lag.length).foldl
             (fun num j => if j ≠ mode ∧ j ≠ i then num * (y - x_lag.getD j 0) else num) 1) /
          ((List.range x_lag.length).foldl
             (fun den j => if j ≠ mode then den * (x_lag.getD mode 0 - x_lag.getD j 0) else den) 1)
      else dLag) 0

/-- The 20-node serendipity hex shape values (funcs.cpp:1008-1031), listed
in slot order 0..19.  Slots 0-7 are the corner loop with
`XI = {-1,1,1,-1,-1,1,1,-1}`, `ETA = {-1,-1,1,1,-1,-1,1,1}`,
`MU = {-1,-1,-1,-1,1,1,1,1}`; slots 8-19 are the explicit edge-node
assignments of the source (written there in the order 8,10,16,18, 9,11,17,19,
12,13,14,15). -/
def shape20 (xi eta mu : ℚ) : List ℚ :=
  [ (1/8)*(1+xi*(-1))*(1+eta*(-1))*(1+mu*(-1))*(xi*(-1)+eta*(-1)+mu*(-1)-2),
    (1/8)*(1+xi*1)*(1+eta*(-1))*(1+mu*(-1))*(xi*1+eta*(-1)+mu*(-1)-2),
    (1/8)*(1+xi*1)*(1+eta*1)*(1+mu*(-1))*(xi*1+eta*1+mu*(-1)-2),
    (1/8)*(1+xi*(-1))*(1+eta*1)*(1+mu*(-1))*(xi*(-1)+eta*1+mu*(-1)-2),
    (1/8)*(1+xi*(-1))*(1+eta*(-1))*(1+mu*1)*(xi*(-1)+eta*(-1)+mu*1-2),
    (1/8)*(1+xi*1)*(1+eta*(-1))*(1+mu*1)*(xi*1+eta*(-1)+mu*1-2),
    (1/8)*(1+xi*1)*(1+eta*1)*(1+mu*1)*(xi*1+eta*1+mu*1-2),
    (1/8)*(1+xi*(-1))*(1+eta*1)*(1+mu*1)*(xi*(-1)+eta*1+mu*1-2),
    (1/4)*(1-xi*xi)*(1-eta)*(1-mu),
    (1/4)*(1-eta*eta)*(1+xi)*(1-mu),
    (1/4)*(1-xi*xi)*(1+eta)*(1-mu),
    (1/4)*(1-eta*eta)*(1-xi)*(1-mu),
    (1/4)*(1-mu*mu)*(1-xi)*(1-eta),
    (1/4)*(1-mu*mu)*(1+xi)*(1-eta),
    (1/4)*(1-mu*mu)*(1+xi)*(1+eta),
    (1/4)*(1-mu*mu)*(1-xi)*(1+eta),
    (1/4)*(1-xi*xi)*(1-eta)*(1+mu),
    (1/4)*(1-eta*eta)*(1+xi)*(1+mu),
    (1/4)*(1-xi*xi)*(1+eta)*(1+mu),
    (1/4)*(1-eta*eta)*(1-xi)*(1+mu) ]

/-- `shape_hex` (funcs.cpp:1002-1072) over exact rationals.  For
`nNodes = 20` the closed-form serendipity basis is used without consulting
the ordering maps; otherwise `nNodes` must be a perfect cube (else
`ThrowException`).  The source loop
`for k: for j: for i: out_shape[ijk2gmsh[i+nSide*(j+nSide*k)]] = lag_i[i]*lag_j[j]*lag_k[k]`
enumerates the structured index `pt = i+nSide*(j+nSide*k)` in increasing
order; it is rendered as a left fold over `range nNodes` that `set`s slot
`ijk2gmsh[pt]` of the output (the C++ output buffer is uninitialised, but
every slot is written exactly once since `ijk2gmsh` is a permutation, so a
zero-initialised list is equivalent). -/
def shape_hex (rst : ℚ × ℚ × ℚ) (nNodes : ℕ) : Except String (List ℚ) :=
  if nNodes = 20 then .ok (shape20 rst.1 rst.2.1 rst.2.2)
  else
    if natCbrt nNodes * natCbrt nNodes * natCbrt nNodes = nNodes then
      match structured_to_gmsh_hex nNodes with
      | .error e => .error e
      | .ok ijk2gmsh =>
        .ok ((List.range nNodes).foldl
          (fun out pt =>
            out.set (ijk2gmsh.getD pt 0)
              (Lagrange (xlistQ (natCbrt nNodes)) rst.1 (pt % natCbrt nNodes) *
               Lagrange (xlistQ (natCbrt nNodes)) rst.2.1 (pt / natCbrt nNodes % natCbrt nNodes) *
               Lagrange (xlistQ (natCbrt nNodes)) rst.2.2 (pt / natCbrt nNodes / natCbrt nNodes)))
          (List.replicate nNodes 0))
    else .error "For Lagrange hex of order N, must have (N+1)^3 shape points."

/-! ### The reference-coordinate Newton solver (funcs.cpp:701-794), 3-D path -/

/-- A 3-vector of rationals (modelling `point`/`Vec3`/`double[3]`). -/
abbrev V3 := ℚ × ℚ × ℚ

def v3x (v : V3) : ℚ := v.1

def v3y (v : V3) : ℚ := v.2.1

def v3z (v : V3) : ℚ := v.2.2

def v3add (a b : V3) : V3 := (a.1 + b.1, a.2.1 + b.2.1, a.2.2 + b.2.2)

def v3smul (c : ℚ) (a : V3) : V3 := (c * a.1, c * a.2.1, c * a.2.2)

/-- `det_3x3` via `det_3x3_part` (funcs.cpp:124-144), on the row-major 3×3
matrix with rows `r0 r1 r2`:
`part(0,1,2) - part(1,0,2) + part(2,0,1)` with
`part(a,b,c) = mat[a]*(mat[3+b]*mat[6+c] - mat[3+c]*mat[6+b])`. -/
def det_3x3 (r0 r1 r2 : V3) : ℚ :=
  v3x r0 * (v3y r1 * v3z r2 - v3z r1 * v3y r2)
  - v3y r0 * (v3x r1 * v3z r2 - v3z r1 * v3x r2)
  + v3z r0 * (v3x r1 * v3y r2 - v3y r1 * v3x r2)

/-- `adjoint_3x3` (funcs.cpp:153-170), returned as the three rows of the
adjugate. -/
def adjoint_3x3 (r0 r1 r2 : V3) : V3 × V3 × V3 :=
  ((v3y r1 * v3z r2 - v3z r1 * v3y r2,
    v3z r0 * v3y r2 - v3y r0 * v3z r2,
    v3y r0 * v3z r1 - v3z r0 * v3y r1),
   (v3z r1 * v3x r2 - v3x r1 * v3z r2,
    v3x r0 * v3z r2 - v3z r0 * v3x r2,
    v3z r0 * v3x r1 - v3x r0 * v3z r1),
   (v3x r1 * v3y r2 - v3y r1 * v3x r2,
    v3y r0 * v3x r2 - v3x r0 * v3y r2,
    v3x r0 * v3y r1 - v3y r0 * v3x r1))

/-- The 20-node serendipity hex derivative triples (funcs.cpp:1170-1196),
slot order 0..19; slot `n` holds `(∂/∂ξ, ∂/∂η, ∂/∂μ)` of basis `n`. -/
def dshape20 (xi eta mu : ℚ) : List V3 :=
  [ ((1/8)*(-1)*(1+eta*(-1))*(1+mu*(-1))*(2*xi*(-1)+eta*(-1)+mu*(-1)-1),
     (1/8)*(-1)*(1+xi*(-1))*(1+mu*(-1))*(xi*(-1)+2*eta*(-1)+mu*(-1)-1),
     (1/8)*(-1)*(1+xi*(-1))*(1+eta*(-1))*(xi*(-1)+eta*(-1)+2*mu*(-1)-1)),
    ((1/8)*1*(1+eta*(-1))*(1+mu*(-1))*(2*xi*1+eta*(-1)+mu*(-1)-1),
     (1/8)*(-1)*(1+xi*1)*(1+mu*(-1))*(xi*1+2*eta*(-1)+mu*(-1)-1),
     (1/8)*(-1)*(1+xi*1)*(1+eta*(-1))*(xi*1+eta*(-1)+2*mu*(-1)-1)),
    ((1/8)*1*(1+eta*1)*(1+mu*(-1))*(2*xi*1+eta*1+mu*(-1)-1),
     (1/8)*1*(1+xi*1)*(1+mu*(-1))*(xi*1+2*eta*1+mu*(-1)-1),
     (1/8)*(-1)*(1+xi*1)*(1+eta*1)*(xi*1+eta*1+2*mu*(-1)-1)),
    ((1/8)*(-1)*(1+eta*1)*(1+mu*(-1))*(2*xi*(-1)+eta*1+mu*(-1)-1),
     (1/8)*1*(1+xi*(-1))*(1+mu*(-1))*(xi*(-1)+2*eta*1+mu*(-1)-1),
     (1/8)*(-1)*(1+xi*(-1))*(1+eta*1)*(xi*(-1)+eta*1+2*mu*(-1)-1)),
    ((1/8)*(-1)*(1+eta*(-1))*(1+mu*1)*(2*xi*(-1)+eta*(-1)+mu*1-1),
     (1/8)*(-1)*(1+xi*(-1))*(1+mu*1)*(xi*(-1)+2*eta*(-1)+mu*1-1),
     (1/8)*1*(1+xi*(-1))*(1+eta*(-1))*(xi*(-1)+eta*(-1)+2*mu*1-1)),
    ((1/8)*1*(1+eta*(-1))*(1+mu*1)*(2*xi*1+eta*(-1)+mu*1-1),
     (1/8)*(-1)*(1+xi*1)*(1+mu*1)*(xi*1+2*eta*(-1)+mu*1-1),
     (1/8)*1*(1+xi*1)*(1+eta*(-1))*(xi*1+eta*(-1)+2*mu*1-1)),
    ((1/8)*1*(1+eta*1)*(1+mu*1)*(2*xi*1+eta*1+mu*1-1),
     (1/8)*1*(1+xi*1)*(1+mu*1)*(xi*1+2*eta*1+mu*1-1),
     (1/8)*1*(1+xi*1)*(1+eta*1)*(xi*1+eta*1+2*mu*1-1)),
    ((1/8)*(-1)*(1+eta*1)*(1+mu*1)*(2*xi*(-1)+eta*1+mu*1-1),
     (1/8)*1*(1+xi*(-1))*(1+mu*1)*(xi*(-1)+2*eta*1+mu*1-1),
     (1/8)*1*(1+xi*(-1))*(1+eta*1)*(xi*(-1)+eta*1+2*mu*1-1)),
    (-(1/2)*xi*(1-eta)*(1-mu), -(1/4)*(1-xi*xi)*(1-mu), -(1/4)*(1-xi*xi)*(1-eta)),
    ((1/4)*(1-eta*eta)*(1-mu), -(1/2)*eta*(1+xi)*(1-mu), -(1/4)*(1-eta*eta)*(1+xi)),
    (-(1/2)*xi*(1+eta)*(1-mu), (1/4)*(1-xi*xi)*(1-mu), -(1/4)*(1-xi*xi)*(1+eta)),
    (-(1/4)*(1-eta*eta)*(1-mu), -(1/2)*eta*(1-xi)*(1-mu), -(1/4)*(1-eta*eta)*(1-xi)),
    (-(1/4)*(1-mu*mu)*(1-eta), -(1/4)*(1-mu*mu)*(1-xi), -(1/2)*mu*(1-xi)*(1-eta)),
    ((1/4)*(1-mu*mu)*(1-eta), -(1/4)*(1-mu*mu)*(1+xi), -(1/2)*mu*(1+xi)*(1-eta)),
    ((1/4)*(1-mu*mu)*(1+eta), (1/4)*(1-mu*mu)*(1+xi), -(1/2)*mu*(1+xi)*(1+eta)),
    (-(1/4)*(1-mu*mu)*(1+eta), (1/4)*(1-mu*mu)*(1-xi), -(1/2)*mu*(1-xi)*(1+eta)),
    (-(1/2)*xi*(1-eta)*(1+mu), -(1/4)*(1-xi*xi)*(1+mu), (1/4)*(1-xi*xi)*(1-eta)),
    ((1/4)*(1-eta*eta)*(1+mu), -(1/2)*eta*(1+xi)*(1+mu), (1/4)*(1-eta*eta)*(1+xi)),
    (-(1/2)*xi*(1+eta)*(1+mu), (1/4)*(1-xi*xi)*(1+mu), (1/4)*(1-xi*xi)*(1+eta)),
    (-(1/4)*(1-eta*eta)*(1+mu), -(1/2)*eta*(1-xi)*(1+mu), (1/4)*(1-eta*eta)*(1-xi)) ]

/-- `dshape_hex` (funcs.cpp:1164-1249) over exact rationals, structured like
`shape_hex`: serendipity branch for `nNodes = 20`, tensor-product scatter
through `ijk2gmsh` for perfect cubes, error otherwise. -/
def dshape_hex (rst : ℚ × ℚ × ℚ) (nNodes : ℕ) : Except String (List V3) :=
  if nNodes = 20 then .ok (dshape20 rst.1 rst.2.1 rst.2.2)
  else
    if natCbrt nNodes * natCbrt nNodes * natCbrt nNodes = nNodes then
      match structured_to_gmsh_hex nNodes with
      | .error e => .error e
      | .ok ijk2gmsh =>
        .ok ((List.range nNodes).foldl
          (fun out pt =>
            out.set (ijk2gmsh.getD pt 0)
              (dLagrange (xlistQ (natCbrt nNodes)) rst.1 (pt % natCbrt nNodes) *
                 Lagrange (xlistQ (natCbrt nNodes)) rst.2.1 (pt / natCbrt nNodes % natCbrt nNodes) *
                 Lagrange (xlistQ (natCbrt nNodes)) rst.2.2 (pt / natCbrt nNodes / natCbrt nNodes),
               Lagrange (xlistQ (natCbrt nNodes)) rst.1 (pt % natCbrt nNodes) *
                 dLagrange (xlistQ (natCbrt nNodes)) rst.2.1 (pt / natCbrt nNodes % natCbrt nNodes) *
                 Lagrange (xlistQ (natCbrt nNodes)) rst.2.2 (pt / natCbrt nNodes / natCbrt nNodes),
               Lagrange (xlistQ (natCbrt nNodes)) rst.1 (pt % natCbrt nNodes) *
                 Lagrange (xlistQ (natCbrt nNodes)) rst.2.1 (pt / natCbrt nNodes % natCbrt nNodes) *
                 dLagrange (xlistQ (natCbrt nNodes)) rst.2.2 (pt / natCbrt nNodes / natCbrt nNodes)))
          (List.replicate nNodes ((0 : ℚ), (0 : ℚ), (0 : ℚ))))
    else .error "For Lagrange hex of order N, must have (N+1)^3 shape points."

/-- `getBoundingBox` (funcs.cpp:300-313) specialised to `nDims = 3` with the
points as triples.  The source initialises the box to ±INFINITY and scans
all points; over `ℚ` this is a fold starting from the first point, equal to
the source whenever the list is nonempty (the only case the solver meets). -/
def bbox3 (pts : List V3) : V3 × V3 :=
  match pts with
  | [] => ((0, 0, 0), (0, 0, 0))
  | p :: rest =>
    rest.foldl (fun b q =>
      ((min (v3x b.1) (v3x q), min (v3y b.1) (v3y q), min (v3z b.1) (v3z q)),
       (max (v3x b.2) (v3x q), max (v3y b.2) (v3y q), max (v3z b.2) (v3z q)))) (p, p)

/-- The clamped coordinate update
`loc[i] = std::max(std::min(loc[i]+delta[i], 1.01), -1.01)`
(funcs.cpp:777). -/
def clampQ (x : ℚ) : ℚ := max (min x (101/100)) (-(101/100))

/-- Result record of `getRefLocNewton`: the written `out_rst`, the returned
interior flag, the final value of `iter`, and (ghost data for the
specification only) the sequence of squared residual norms computed by the
loop.  All norm comparisons of the source are carried out on squares. -/
structure NewtonOut where
  rst : V3
  inside : Bool
  iters : ℕ
  normSqs : List ℚ
deriving DecidableEq

/-- One pass of the Newton loop body (funcs.cpp:745-785, `nDims = 3` path):
evaluate the basis at `loc`, form the residual `dx = pos − Σ shape[n]·xv[n]`
and Jacobian `grad[i][j] = Σ xv[n][i]·dshape[n][j]`, apply the
adjugate/determinant solve, and return the clamped new `loc` together with
`‖dx‖²`. -/
def newtonStep (xv : List V3) (pos : V3) (nNodes : ℕ) (loc : V3) :
    Except String (V3 × ℚ) :=
  match shape_hex loc nNodes with
  | .error e => .error e
  | .ok sh =>
    match dshape_hex loc nNodes with
    | .error e => .error e
    | .ok dsh =>
      let dx := (List.zip sh xv).foldl
        (fun d p => (d.1 - p.1 * v3x p.2, d.2.1 - p.1 * v3y p.2, d.2.2 - p.1 * v3z p.2))
        pos
      let g := (List.zip xv dsh).foldl
        (fun g nd =>
          (v3add g.1 (v3smul (v3x nd.1) nd.2),
           v3add g.2.1 (v3smul (v3y nd.1) nd.2),
           v3add g.2.2 (v3smul (v3z nd.1) nd.2)))
        (((0:ℚ), (0:ℚ), (0:ℚ)), ((0:ℚ), (0:ℚ), (0:ℚ)), ((0:ℚ), (0:ℚ), (0:ℚ)))
      let detJ := det_3x3 g.1 g.2.1 g.2.2
      let adj := adjoint_3x3 g.1 g.2.1 g.2.2
      let delta : V3 :=
        (v3x adj.1 * v3x dx / detJ + v3y adj.1 * v3y dx / detJ + v3z adj.1 * v3z dx / detJ,
         v3x adj.2.1 * v3x dx / detJ + v3y adj.2.1 * v3y dx / detJ + v3z adj.2.1 * v3z dx / detJ,
         v3x adj.2.2 * v3x dx / detJ + v3y adj.2.2 * v3y dx / detJ + v3z adj.2.2 * v3z dx / detJ)
      .ok ((clampQ (v3x loc + v3x delta), clampQ (v3y loc + v3y delta),
            clampQ (v3z loc + v3z delta)),
           v3x dx * v3x dx + v3y dx * v3y dx + v3z dx * v3z dx)

/-- The Newton `while` loop (funcs.cpp:745-785).  `fuel` is the remaining
iteration budget (`iterMax − iter`, initially 20 with `iter = 0`, so
`fuel > 0 ↔ iter < iterMax`); `normSq`/`normPrevSq` are the squares of the
source's `norm`/`norm_prev`; the list accumulates every computed `‖dx‖²`.
The body exits early (`break`) when `iter > 1` and the fresh norm exceeds
`0.99·norm_prev` (squared comparison). -/
def newtonLoop (xv : List V3) (pos : V3) (nNodes : ℕ) :
    ℕ → ℕ → V3 → ℚ → ℚ → ℚ → List ℚ → Except String (V3 × ℕ × List ℚ)
  | 0, iter, loc, _, _, _, trace => .ok (loc, iter, trace)
  | fuel+1, iter, loc, normSq, normPrevSq, tolSq, trace =>
    if normSq > tolSq then
      match newtonStep xv pos nNodes loc with
      | .error e => .error e
      | .ok (newLoc, nsq) =>
        if 1 < iter ∧ nsq > (99/100)^2 * normPrevSq then
          .ok (newLoc, iter, trace ++ [nsq])
        else
          newtonLoop xv pos nNodes fuel (iter+1) newLoc nsq nsq tolSq (trace ++ [nsq])
    else .ok (loc, iter, trace)

/-- The squared Newton tolerance `(1e-10·h)²` with
`h = min(xmax−xmin, min(ymax−ymin, zmax−zmin))` over the element bounding
box (funcs.cpp:711-729). -/
def newtonTolSq (xv : List V3) (nNodes : ℕ) : ℚ :=
  ((1/10^10) * (min (v3x (bbox3 (xv.take nNodes)).2 - v3x (bbox3 (xv.take nNodes)).1)
    (min (v3y (bbox3 (xv.take nNodes)).2 - v3y (bbox3 (xv.take nNodes)).1)
         (v3z (bbox3 (xv.take nNodes)).2 - v3z (bbox3 (xv.take nNodes)).1))))^2

/-- `getRefLocNewton` (funcs.cpp:701-794), `nDims = 3` path: bounding box
and relative tolerance `tol = 1e-10·h`, Newton iteration from the origin
with `iterMax = 20`, and the interior test
`max(|loc₀|, max(|loc₁|, |loc₂|)) ≤ 1 + 1e-10` on the final iterate. -/
def getRefLocNewton (xv : List V3) (in_xyz : V3) (nNodes : ℕ) :
    Except String NewtonOut :=
  match newtonLoop xv in_xyz nNodes 20 0 (0, 0, 0) 1 4 (newtonTolSq xv nNodes) [] with
  | .error e => .error e
  | .ok (loc, iter, trace) =>
    .ok ⟨loc,
         decide (max |v3x loc| (max |v3y loc| |v3z loc|) ≤ 1 + 1/10^10),
         iter, trace⟩

/-- The 8 corners of the unit cube `[0,1]³` in gmsh corner order (a witness
element for the solver theorems). -/
def unitHexXv : List V3 :=
  [(0, 0, 0), (1, 0, 0), (1, 1, 0), (0, 1, 0),
   (0, 0, 1), (1, 0, 1), (1, 1, 1), (0, 1, 1)]

/-- A 27-node (quadratic) hex in gmsh node order whose structured node
`(i,j,k)` sits at `(f(ξᵢ), ξⱼ, ξₖ)` with `ξ = (-1,0,1)` and
`f = (-1, 9/10, 1)`: the map is `x(r) = r + 0.9(1−r²)`, `y(s) = s`,
`z(t) = t`, a curved element on which Newton stalls for targets just past
the fold of `x(r)`. -/
def curvedHexXv : List V3 :=
  [(-1, -1, -1), (1, -1, -1), (1, 1, -1),
   (-1, 1, -1), (-1, -1, 1), (1, -1, 1),
   (1, 1, 1), (-1, 1, 1), (9/10, -1, -1),
   (-1, 0, -1), (-1, -1, 0), (1, 0, -1),
   (1, -1, 0), (9/10, 1, -1), (1, 1, 0),
   (-1, 1, 0), (9/10, -1, 1), (-1, 0, 1),
   (1, 0, 1), (9/10, 1, 1), (9/10, 0, -1),
   (9/10, -1, 0), (-1, 0, 0), (1, 0, 0),
   (9/10, 1, 0), (9/10, 0, 1), (9/10, 0, 0)]

/-! ### C5: the transformed bounding-box variant -/

/-- The per-point transform loop of the `Smat` variant of `getBoundingBox`
(funcs.cpp:325-329), exactly as written:
`tmp_pt[d1] += Smat[nDims*d1+d2] * pts[i*nDims+d1]` — note the point is
indexed with `d1`, the row index, not with the column index `d2`. -/
def tmpPtSmat (pts Smat : List ℚ) (nDims i : ℕ) : List ℚ :=
  (List.range nDims).map (fun d1 =>
    (List.range nDims).foldl
      (fun acc d2 => acc + Smat.getD (nDims*d1+d2) 0 * pts.getD (i*nDims+d1) 0) 0)

/-- The matrix-vector product the spec describes for the same loop:
`tmp_pt[d1] = Σ_d2 Smat[nDims*d1+d2] * pts[i*nDims+d2]` (row-major `Smat`
applied to the `i`-th point). -/
def tmpPtSmatSpec (pts Smat : List ℚ) (nDims i : ℕ) : List ℚ :=
  (List.range nDims).map (fun d1 =>
    (List.range nDims).foldl
      (fun acc d2 => acc + Smat.getD (nDims*d1+d2) 0 * pts.getD (i*nDims+d2) 0) 0)

/-- The transformed variant of `getBoundingBox` (funcs.cpp:315-336) over a
flat row-major point list.  The `±INFINITY` initialisation of the min/max
accumulators is rendered by an `Option` accumulator: the first transformed
point replaces the infinities, later points fold in through `min`/`max`
componentwise; an empty point set yields `none` (the C++ leaves the
infinities in place).  The result is `bbox = mins ++ maxs`. -/
def getBoundingBoxSmat (pts : List ℚ) (nPts nDims : ℕ) (Smat : List ℚ) :
    Option (List ℚ) :=
  match (List.range nPts).foldl
      (fun acc i =>
        let tp := tmpPtSmat pts Smat nDims i
        match acc with
        | none => some (tp, tp)
        | some (lo, hi) =>
          some ((List.range nDims).map (fun d => min (lo.getD d 0) (tp.getD d 0)),
                (List.range nDims).map (fun d => max (hi.getD d 0) (tp.getD d 0))))
      none with
  | none => none
  | some (lo, hi) => some (lo ++ hi)

/-- The same reduction with the transform the spec describes
(componentwise min/max over `i` of `Smat * pts[i]`). -/
def getBoundingBoxSmatSpec (pts : List ℚ) (nPts nDims : ℕ) (Smat : List ℚ) :
    Option (List ℚ) :=
  match (List.range nPts).foldl
      (fun acc i =>
        let tp := tmpPtSmatSpec pts Smat nDims i
        match acc with
        | none => some (tp, tp)
        | some (lo, hi) =>
          some ((List.range nDims).map (fun d => min (lo.getD d 0) (tp.getD d 0)),
                (List.range nDims).map (fun d => max (hi.getD d 0) (tp.getD d 0))))
      none with
  | none => none
  | some (lo, hi) => some (lo ++ hi)

/-! ### C6, C10: the triangle-triangle distance kernels

The direct-cut kernels use `sqrt` (through `NORM` and the final distance of
`lineSegmentDistance`), so the embedding is parameterised by a square-root
oracle `rsqrt : ℚ → ℚ`; instantiating `rsqrt` with the true square root
recovers the real-number reading of the code, and theorems quantified over
`rsqrt` hold in particular for it.  For concrete evaluations `ratSqrt` is
used, which agrees with the true square root whenever the radicand is the
square of a rational — as it is at every call site of the concrete inputs
below.  Divisions by zero follow Lean's `x / 0 = 0` convention (the C code
never divides by zero on the inputs considered). -/

/-- A 3-D triangle as its three vertices (rows `T`, `T+3`, `T+6`). -/
def TriQ : Type := V3 × V3 × V3

/-- Componentwise difference, `a - b`. -/
def v3sub (a b : V3) : V3 := (a.1 - b.1, a.2.1 - b.2.1, a.2.2 - b.2.2)

/-- The `DOT` macro (part_000:16). -/
def v3dot (a b : V3) : ℚ := a.1*b.1 + a.2.1*b.2.1 + a.2.2*b.2.2

/-- The `CROSS` macro (part_000:6-9). -/
def v3cross (a b : V3) : V3 :=
  (a.2.1*b.2.2 - a.2.2*b.2.1, a.2.2*b.1 - a.1*b.2.2, a.1*b.2.1 - a.2.1*b.1)

/-- Componentwise division by a scalar (the `N[d] /= norm` loops). -/
def v3div (a : V3) (s : ℚ) : V3 := (a.1 / s, a.2.1 / s, a.2.2 / s)

/-- `DOTCROSS4` (part_000:20-29): `c · ((a1-a2) × (b1-b2))`, also the dPoint
expression `c*((a1-a2).cross(b1-b2))` of `triTriDistance`. -/
def dotcross4 (c a1 a2 b1 b2 : V3) : ℚ := v3dot c (v3cross (v3sub a1 a2) (v3sub b1 b2))

/-- Modelled from the spec: the sign tests of the Möller kernel ("all three
signed distances share a sign") use the conventional integer signum `sgn`,
declared in a repository header not present under `src/`: `1` on positives,
`-1` on negatives, `0` at zero. -/
def sgnQ (q : ℚ) : ℤ := if 0 < q then 1 else if q < 0 then -1 else 0

/-- Exact rational square root used to instantiate the `rsqrt` oracle on
concrete inputs: componentwise `Nat.findGreatest` square roots of the
numerator and denominator.  It returns the true square root whenever the
argument is the square of a rational. -/
def ratSqrt (q : ℚ) : ℚ :=
  ((Nat.findGreatest (fun s => s*s ≤ q.num.toNat) q.num.toNat : ℚ)) /
  ((Nat.findGreatest (fun s => s*s ≤ q.den) q.den : ℚ))

/-- `lineSegmentDistance` (part_000:104-139): approximate minimum distance
between segments `p1p2` and `p3p4`, returning the distance together with the
separation vector `dx` written by the routine.  Follows the source line by
line: nearly-parallel guard at `den < 1e-10`, clamping of both parameters to
`[0,1]`, `dx = (p3 + t·V) - (p1 + s·U)`, returned distance `sqrt(dx·dx)`. -/
def lineSegmentDistance (rsqrt : ℚ → ℚ) (p1 p2 p3 p4 : V3) : ℚ × V3 :=
  let U := v3sub p2 p1
  let V := v3sub p4 p3
  let W := v3sub p1 p3
  let uu := v3dot U U
  let vv := v3dot V V
  let uv := v3dot U V
  let uw := v3dot U W
  let vw := v3dot V W
  let den := uu*vv - uv*uv
  let s := if den < 1/10^10 then 0 else (uv*vw - vv*uw) / den
  let t := if den < 1/10^10 then uw / uv else (uu*vw - uv*uw) / den
  let s2 := min (max s 0) 1
  let t2 := min (max t 0) 1
  let dx := v3sub (v3add p3 (v3smul t2 V)) (v3add p1 (v3smul s2 U))
  (rsqrt (v3dot dx dx), dx)

/-- The edge-edge sweep that opens both tri-tri kernels (part_000:150-165
and, textually identical, part_000:430-445): nine `lineSegmentDistance`
calls over edge `i` of `T1` (from vertex `i` to vertex `(i+1) % 3`) against
edge `j` of `T2`, `i` outer and `j` inner, keeping the strictly smallest
distance and its separation vector.  `dist` starts at `1e15`; the
uninitialised C `minVec` is rendered as `(0,0,0)` (it is overwritten by the
first strictly closer pair). -/
def triEdgeMin (rsqrt : ℚ → ℚ) (T1 T2 : TriQ) : ℚ × V3 :=
  ([(T1.1, T1.2.1), (T1.2.1, T1.2.2), (T1.2.2, T1.1)].flatMap (fun e1 =>
    [(T2.1, T2.2.1), (T2.2.1, T2.2.2), (T2.2.2, T2.1)].map (fun e2 => (e1, e2)))).foldl
    (fun acc p =>
      let Dv := lineSegmentDistance rsqrt p.1.1 p.1.2 p.2.1 p.2.2
      if Dv.1 < acc.1 then Dv else acc)
    (10^15, ((0 : ℚ), (0 : ℚ), (0 : ℚ)))

/-- `triTriDistance` (part_000:146-422): modified Möller triangle-triangle
kernel, returning `(distance, minVec)`.  Mirrors the source order: edge
sweep; early return `0` when the best edge distance is below `tol`
(part_000:167); plane of `T2` then plane of `T1`; signed vertex-plane
distances rounded to `0` below `1e-10`; approximately-coplanar
containment checks; the two same-sign projection branches (each candidate
taken only when strictly closer and its projection lies inside the other
triangle), whose firing sets `noTouch`; otherwise the piercing branch on the
intersection line `L = N1 × N2` with interval overlap test. -/
def triTriDistance (rsqrt : ℚ → ℚ) (T1 T2 : TriQ) (tol : ℚ) : ℚ × V3 :=
  if (triEdgeMin rsqrt T1 T2).1 < tol then (0, (triEdgeMin rsqrt T1 T2).2) else
  let dist := (triEdgeMin rsqrt T1 T2).1
  let minVec := (triEdgeMin rsqrt T1 T2).2
  let V01 := T1.1
  let V11 := T1.2.1
  let V21 := T1.2.2
  let V02 := T2.1
  let V12 := T2.2.1
  let V22 := T2.2.2
  let N2p := v3cross (v3sub V12 V02) (v3sub V22 V02)
  let N2 := v3div N2p (rsqrt (v3dot N2p N2p))
  let d2 := -(v3dot N2 V02)
  let N1p := v3cross (v3sub V11 V01) (v3sub V21 V01)
  let N1 := v3div N1p (rsqrt (v3dot N1p N1p))
  let d1 := -(v3dot N1 V01)
  let d01r := v3dot N2 V01 + d2
  let d11r := v3dot N2 V11 + d2
  let d21r := v3dot N2 V21 + d2
  let d02r := v3dot N1 V02 + d1
  let d12r := v3dot N1 V12 + d1
  let d22r := v3dot N1 V22 + d1
  let d01 := if |d01r| < 1/10^10 then 0 else d01r
  let d11 := if |d11r| < 1/10^10 then 0 else d11r
  let d21 := if |d21r| < 1/10^10 then 0 else d21r
  let d02 := if |d02r| < 1/10^10 then 0 else d02r
  let d12 := if |d12r| < 1/10^10 then 0 else d12r
  let d22 := if |d22r| < 1/10^10 then 0 else d22r
  if (|d01| + |d11| + |d21| < 3*tol ∨ |d02| + |d12| + |d22| < 3*tol) ∧
     ((0 < dotcross4 N2 V12 V02 V01 V02 ∧ 0 < dotcross4 N2 V02 V22 V01 V22 ∧
       0 < dotcross4 N2 V22 V12 V01 V12) ∨
      (0 < dotcross4 N1 V11 V01 V02 V01 ∧ 0 < dotcross4 N1 V01 V21 V02 V21 ∧
       0 < dotcross4 N1 V21 V11 V02 V11)) then (0, minVec) else
  let r1 :=
    if sgnQ d01 = sgnQ d11 ∧ sgnQ d01 = sgnQ d21 then
      let a1 :=
        if |d01| < dist then
          let P := v3sub V01 (v3smul d01 N2)
          if 0 < dotcross4 N2 V12 V02 P V02 ∧ 0 < dotcross4 N2 V02 V22 P V22 ∧
             0 < dotcross4 N2 V22 V12 P V12 then (|d01|, v3smul d01 N2)
          else (dist, minVec)
        else (dist, minVec)
      let a2 :=
        if |d11| < a1.1 then
          let P := v3sub V11 (v3smul d11 N2)
          if 0 < dotcross4 N2 V12 V02 P V02 ∧ 0 < dotcross4 N2 V02 V22 P V22 ∧
             0 < dotcross4 N2 V22 V12 P V12 then (|d11|, v3smul d11 N2)
          else a1
        else a1
      if |d21| < a2.1 then
        let P := v3sub V21 (v3smul d21 N2)
        if 0 < dotcross4 N2 V12 V02 P V02 ∧ 0 < dotcross4 N2 V02 V22 P V22 ∧
           0 < dotcross4 N2 V22 V12 P V12 then (|d21|, v3smul d21 N2)
        else a2
      else a2
    else (dist, minVec)
  let r2 :=
    if sgnQ d02 = sgnQ d12 ∧ sgnQ d02 = sgnQ d22 then
      let a1 :=
        if |d02| < r1.1 then
          let P := v3sub V02 (v3smul d02 N1)
          if 0 < dotcross4 N1 V11 V01 P V01 ∧ 0 < dotcross4 N1 V01 V21 P V21 ∧
             0 < dotcross4 N1 V21 V11 P V11 then (|d02|, v3smul d02 N1)
          else r1
        else r1
      let a2 :=
        if |d12| < a1.1 then
          let P := v3sub V12 (v3smul d12 N1)
          if 0 < dotcross4 N1 V11 V01 P V01 ∧ 0 < dotcross4 N1 V01 V21 P V21 ∧
             0 < dotcross4 N1 V21 V11 P V11 then (|d12|, v3smul d12 N1)
          else a1
        else a1
      if |d22| < a2.1 then
        let P := v3sub V22 (v3smul d22 N1)
        if 0 < dotcross4 N1 V11 V01 P V01 ∧ 0 < dotcross4 N1 V01 V21 P V21 ∧
           0 < dotcross4 N1 V21 V11 P V11 then (|d22|, v3smul d22 N1)
        else a2
      else a2
    else r1
  if (sgnQ d01 = sgnQ d11 ∧ sgnQ d01 = sgnQ d21) ∨
     (sgnQ d02 = sgnQ d12 ∧ sgnQ d02 = sgnQ d22) then r2 else
  let Lp := v3cross N1 N2
  let L := v3div Lp (rsqrt (v3dot Lp Lp))
  let p0 := v3dot L V01
  let p1 := v3dot L V11
  let p2 := v3dot L V21
  let q0 := v3dot L V02
  let q1 := v3dot L V12
  let q2 := v3dot L V22
  let npt1 : ℕ := if sgnQ d01 ≠ sgnQ d11 then (if sgnQ d11 = sgnQ d21 then 0 else 1) else 2
  let npt2 : ℕ := if sgnQ d02 ≠ sgnQ d12 then (if sgnQ d12 = sgnQ d22 then 0 else 1) else 2
  let s1r := if npt1 = 0 then p1 + (p0-p1) * (d11 / (d11-d01))
             else if npt1 = 1 then p0 + (p1-p0) * (d01 / (d01-d11))
             else p0 + (p2-p0) * (d01 / (d01-d21))
  let s2r := if npt1 = 0 then p2 + (p0-p2) * (d21 / (d21-d01))
             else if npt1 = 1 then p2 + (p1-p2) * (d21 / (d21-d11))
             else p1 + (p2-p1) * (d11 / (d11-d21))
  let t1r := if npt2 = 0 then q1 + (q0-q1) * (d12 / (d12-d02))
             else if npt2 = 1 then q0 + (q1-q0) * (d02 / (d02-d12))
             else q0 + (q2-q0) * (d02 / (d02-d22))
  let t2r := if npt2 = 0 then q2 + (q0-q2) * (d22 / (d22-d02))
             else if npt2 = 1 then q2 + (q1-q2) * (d22 / (d22-d12))
             else q1 + (q2-q1) * (d12 / (d12-d22))
  let s1 := if |s1r| < 1/10^10 then 0 else s1r
  let s2 := if |s2r| < 1/10^10 then 0 else s2r
  let t1 := if |t1r| < 1/10^10 then 0 else t1r
  let t2 := if |t2r| < 1/10^10 then 0 else t2r
  let sLo := min s1 s2
  let sHi := max s1 s2
  let tLo := min t1 t2
  let tHi := max t1 t2
  if sHi < tLo ∨ tHi < sLo then
    let dt := min |tLo - sHi| |sLo - tHi|
    let dl := rsqrt (v3dot (v3smul dt L) (v3smul dt L))
    if dl < r2.1 then (dl, v3smul ((sgnQ (tLo - sHi) : ℚ) * dt) L) else r2
  else (0, r2.2)

/-- `triTriDistance2` (part_000:426-730): the variant of the same kernel
actually called by the classifier.  It opens with the identical edge sweep
but has NO early return on the edge minimum; it computes the plane of `T1`
first, then `T2` (the reverse of `triTriDistance`); every subsequent line
matches `triTriDistance` (the dPoint operators there expand to exactly the
`CROSS4`/`DOT`/`NORM` macros used here). -/
def triTriDistance2 (rsqrt : ℚ → ℚ) (T1 T2 : TriQ) (tol : ℚ) : ℚ × V3 :=
  let dist := (triEdgeMin rsqrt T1 T2).1
  let minVec := (triEdgeMin rsqrt T1 T2).2
  let V01 := T1.1
  let V11 := T1.2.1
  let V21 := T1.2.2
  let V02 := T2.1
  let V12 := T2.2.1
  let V22 := T2.2.2
  let N1p := v3cross (v3sub V11 V01) (v3sub V21 V01)
  let N1 := v3div N1p (rsqrt (v3dot N1p N1p))
  let d1 := -(v3dot N1 V01)
  let N2p := v3cross (v3sub V12 V02) (v3sub V22 V02)
  let N2 := v3div N2p (rsqrt (v3dot N2p N2p))
  let d2 := -(v3dot N2 V02)
  let d01r := v3dot N2 V01 + d2
  let d11r := v3dot N2 V11 + d2
  let d21r := v3dot N2 V21 + d2
  let d02r := v3dot N1 V02 + d1
  let d12r := v3dot N1 V12 + d1
  let d22r := v3dot N1 V22 + d1
  let d01 := if |d01r| < 1/10^10 then 0 else d01r
  let d11 := if |d11r| < 1/10^10 then 0 else d11r
  let d21 := if |d21r| < 1/10^10 then 0 else d21r
  let d02 := if |d02r| < 1/10^10 then 0 else d02r
  let d12 := if |d12r| < 1/10^10 then 0 else d12r
  let d22 := if |d22r| < 1/10^10 then 0 else d22r
  if (|d01| + |d11| + |d21| < 3*tol ∨ |d02| + |d12| + |d22| < 3*tol) ∧
     ((0 < dotcross4 N2 V12 V02 V01 V02 ∧ 0 < dotcross4 N2 V02 V22 V01 V22 ∧
       0 < dotcross4 N2 V22 V12 V01 V12) ∨
      (0 < dotcross4 N1 V11 V01 V02 V01 ∧ 0 < dotcross4 N1 V01 V21 V02 V21 ∧
       0 < dotcross4 N1 V21 V11 V02 V11)) then (0, minVec) else
  let r1 :=
    if sgnQ d01 = sgnQ d11 ∧ sgnQ d01 = sgnQ d21 then
      let a1 :=
        if |d01| < dist then
          let P := v3sub V01 (v3smul d01 N2)
          if 0 < dotcross4 N2 V12 V02 P V02 ∧ 0 < dotcross4 N2 V02 V22 P V22 ∧
             0 < dotcross4 N2 V22 V12 P V12 then (|d01|, v3smul d01 N2)
          else (dist, minVec)
        else (dist, minVec)
      let a2 :=
        if |d11| < a1.1 then
          let P := v3sub V11 (v3smul d11 N2)
          if 0 < dotcross4 N2 V12 V02 P V02 ∧ 0 < dotcross4 N2 V02 V22 P V22 ∧
             0 < dotcross4 N2 V22 V12 P V12 then (|d11|, v3smul d11 N2)
          else a1
        else a1
      if |d21| < a2.1 then
        let P := v3sub V21 (v3smul d21 N2)
        if 0 < dotcross4 N2 V12 V02 P V02 ∧ 0 < dotcross4 N2 V02 V22 P V22 ∧
           0 < dotcross4 N2 V22 V12 P V12 then (|d21|, v3smul d21 N2)
        else a2
      else a2
    else (dist, minVec)
  let r2 :=
    if sgnQ d02 = sgnQ d12 ∧ sgnQ d02 = sgnQ d22 then
      let a1 :=
        if |d02| < r1.1 then
          let P := v3sub V02 (v3smul d02 N1)
          if 0 < dotcross4 N1 V11 V01 P V01 ∧ 0 < dotcross4 N1 V01 V21 P V21 ∧
             0 < dotcross4 N1 V21 V11 P V11 then (|d02|, v3smul d02 N1)
          else r1
        else r1
      let a2 :=
        if |d12| < a1.1 then
          let P := v3sub V12 (v3smul d12 N1)
          if 0 < dotcross4 N1 V11 V01 P V01 ∧ 0 < dotcross4 N1 V01 V21 P V21 ∧
             0 < dotcross4 N1 V21 V11 P V11 then (|d12|, v3smul d12 N1)
          else a1
        else a1
      if |d22| < a2.1 then
        let P := v3sub V22 (v3smul d22 N1)
        if 0 < dotcross4 N1 V11 V01 P V01 ∧ 0 < dotcross4 N1 V01 V21 P V21 ∧
           0 < dotcross4 N1 V21 V11 P V11 then (|d22|, v3smul d22 N1)
        else a2
      else a2
    else r1
  if (sgnQ d01 = sgnQ d11 ∧ sgnQ d01 = sgnQ d21) ∨
     (sgnQ d02 = sgnQ d12 ∧ sgnQ d02 = sgnQ d22) then r2 else
  let Lp := v3cross N1 N2
  let L := v3div Lp (rsqrt (v3dot Lp Lp))
  let p0 := v3dot L V01
  let p1 := v3dot L V11
  let p2 := v3dot L V21
  let q0 := v3dot L V02
  let q1 := v3dot L V12
  let q2 := v3dot L V22
  let npt1 : ℕ := if sgnQ d01 ≠ sgnQ d11 then (if sgnQ d11 = sgnQ d21 then 0 else 1) else 2
  let npt2 : ℕ := if sgnQ d02 ≠ sgnQ d12 then (if sgnQ d12 = sgnQ d22 then 0 else 1) else 2
  let s1r := if npt1 = 0 then p1 + (p0-p1) * (d11 / (d11-d01))
             else if npt1 = 1 then p0 + (p1-p0) * (d01 / (d01-d11))
             else p0 + (p2-p0) * (d01 / (d01-d21))
  let s2r := if npt1 = 0 then p2 + (p0-p2) * (d21 / (d21-d01))
             else if npt1 = 1 then p2 + (p1-p2) * (d21 / (d21-d11))
             else p1 + (p2-p1) * (d11 / (d11-d21))
  let t1r := if npt2 = 0 then q1 + (q0-q1) * (d12 / (d12-d02))
             else if npt2 = 1 then q0 + (q1-q0) * (d02 / (d02-d12))
             else q0 + (q2-q0) * (d02 / (d02-d22))
  let t2r := if npt2 = 0 then q2 + (q0-q2) * (d22 / (d22-d02))
             else if npt2 = 1 then q2 + (q1-q2) * (d22 / (d22-d12))
             else q1 + (q2-q1) * (d12 / (d12-d22))
  let s1 := if |s1r| < 1/10^10 then 0 else s1r
  let s2 := if |s2r| < 1/10^10 then 0 else s2r
  let t1 := if |t1r| < 1/10^10 then 0 else t1r
  let t2 := if |t2r| < 1/10^10 then 0 else t2r
  let sLo := min s1 s2
  let sHi := max s1 s2
  let tLo := min t1 t2
  let tHi := max t1 t2
  if sHi < tLo ∨ tHi < sLo then
    let dt := min |tLo - sHi| |sLo - tHi|
    let dl := rsqrt (v3dot (v3smul dt L) (v3smul dt L))
    if dl < r2.1 then (dl, v3smul ((sgnQ (tLo - sHi) : ℚ) * dt) L) else r2
  else (0, r2.2)

/-- Concrete triangle `{(0,0,0), (1,0,0), (0,1,0)}`. -/
def triEx1 : TriQ := (((0:ℚ), (0:ℚ), (0:ℚ)), ((1:ℚ), (0:ℚ), (0:ℚ)), ((0:ℚ), (1:ℚ), (0:ℚ)))

/-- `triEx1` translated by `(0,0,2)`: a parallel copy two units above. -/
def triEx2 : TriQ := (((0:ℚ), (0:ℚ), (2:ℚ)), ((1:ℚ), (0:ℚ), (2:ℚ)), ((0:ℚ), (1:ℚ), (2:ℚ)))

/-! ### C7: the per-element classification loop of fillCutMap -/

/-- Modelled from the spec: the four cut-flag codes — the `DC_*` constants
live in a header not present under `src/`; the spec fixes the numeric
contract `UNASSIGNED=0, NORMAL=1, HOLE=2, CUT=3`. -/
def DC_UNASSIGNED : ℤ := 0

/-- Modelled from the spec: see `DC_UNASSIGNED`. -/
def DC_NORMAL : ℤ := 1

/-- Modelled from the spec: see `DC_UNASSIGNED`. -/
def DC_HOLE : ℤ := 2

/-- Modelled from the spec: see `DC_UNASSIGNED`. -/
def DC_CUT : ℤ := 3

/-- Modelled from the spec: the `BIG_DOUBLE` initial distance ("dist = +∞"
in the spec's accumulator) — the constant itself is defined in a header not
under `src/`; any value larger than every real distance works, and the
device kernels use `1e15` for the same purpose. -/
def BIG_DOUBLE : ℚ := 10^15

/-- What one cutting facet contributes to the classification of one
element, abstracting the geometry of fillCutMap (part_000:976-985): the
result of `boundingBoxCheck`, the distance from `intersectionCheck`, the
(unnormalised) separation vector it writes, and `faceNormal(fxv)`. -/
structure FacetEval where
  bboxOK : Bool
  dist : ℚ
  vec : V3
  norm : V3
deriving DecidableEq

/-- The per-element accumulator of `fillCutMap` (part_000:934-938):
`myFlag`, `myDist`, `myNorm`, `myDot`, `nMin`.  The uninitialised C
`myDot` is rendered as 0 (it is only ever read after being written). -/
structure CutState where
  flag : ℤ
  dist : ℚ
  norm : V3
  dot : ℚ
  nMin : ℚ
deriving DecidableEq

/-- Initial accumulator (part_000:934-938). -/
def initCutState : CutState :=
  ⟨DC_UNASSIGNED, BIG_DOUBLE, ((0:ℚ), (0:ℚ), (0:ℚ)), 0, 0⟩

/-- One iteration of the facet loop of `fillCutMap` (part_000:960-1029) on
the abstract facet outcome `f`: skip if already `CUT` (971); skip if the
bounding boxes do not overlap (978); if `dist < 1e-8·btol` set `CUT` with
distance 0 (987-991); else if unassigned or strictly closer by more than
`dtol`, adopt this facet's normal (negated when `cutType == 0`) and set
`HOLE`/`NORMAL` by the sign of `norm · (vec/dist)` (992-1009); else if
within `dtol` of the recorded distance, average the normal in and re-decide
the flag (1010-1026); otherwise ignore (1027). -/
def fillCutStep (cutType : ℤ) (btol dtol : ℚ) (s : CutState) (f : FacetEval) : CutState :=
  if s.flag = DC_CUT then s
  else if f.bboxOK then
    let vec := v3div f.vec f.dist
    let norm := if cutType = 0 then v3smul (-1) f.norm else f.norm
    if f.dist < 1/10^8 * btol then
      { s with flag := DC_CUT, dist := 0 }
    else if s.flag = DC_UNASSIGNED ∨ f.dist < s.dist - dtol then
      { flag := if v3dot norm vec < 0 then DC_HOLE else DC_NORMAL,
        dist := f.dist, norm := norm, dot := v3dot norm vec, nMin := 1 }
    else if |f.dist - s.dist| ≤ dtol then
      { flag := if v3dot norm vec < 0 then DC_HOLE else DC_NORMAL,
        dist := f.dist,
        norm := ((s.nMin * s.norm.1 + norm.1) / (s.nMin + 1),
                 (s.nMin * s.norm.2.1 + norm.2.1) / (s.nMin + 1),
                 (s.nMin * s.norm.2.2 + norm.2.2) / (s.nMin + 1)),
        dot := v3dot norm vec, nMin := s.nMin + 1 }
    else s
  else s

/-- The classification of one element by `fillCutMap` over its facet list:
fold the loop body over the facet outcomes in order and emit the final flag
(part_000:960-1034); `dtol = 1e-3·btol` (956). -/
def fillCutMapElem (cutType : ℤ) (btol : ℚ) (facets : List FacetEval) : ℤ :=
  (facets.foldl (fillCutStep cutType btol (1/1000 * btol)) initCutState).flag

/-! ### Generic membership and summation helpers -/

lemma mem_map_range {α : Type} (g : ℕ → α) {n j : ℕ} (hj : j < n) :
    g j ∈ (List.range n).map g :=
  List.mem_map.2 ⟨j, List.mem_range.2 hj, rfl⟩

lemma mem_flatMap_range {α : Type} {x : α} {f : ℕ → List α} {n j : ℕ} (hj : j < n)
    (hx : x ∈ f j) : x ∈ (List.range n).flatMap f :=
  List.mem_flatMap.2 ⟨j, List.mem_range.2 hj, hx⟩

lemma sum_map_range_peel (f : ℕ → ℕ) (n : ℕ) :
    ((List.range (n+1)).map f).sum = f 0 + ((List.range n).map (fun i => f (i+1))).sum := by
  rw [List.range_succ_eq_map, List.map_cons, List.sum_cons, List.map_map]
  rfl

lemma quadShell_len (s : ℕ) :
    ((List.range (s/2)).map (fun j0 => 4 + 4 * (s - 2*(j0+1)))).sum
      + (if s % 2 = 1 then 1 else 0) = s^2 := by
  induction s using Nat.strong_induction_on with
  | _ s ih =>
    by_cases h0 : s < 2
    · have h01 : s = 0 ∨ s = 1 := by omega
      rcases h01 with rfl | rfl <;> decide
    · obtain ⟨t, rfl⟩ : ∃ t, s = t + 2 := ⟨s - 2, by omega⟩
      have h2 : (t+2)/2 = t/2 + 1 := by omega
      rw [h2, sum_map_range_peel]
      have hfe : (fun i => 4 + 4 * (t + 2 - 2*(i+1+1))) = (fun j0 => 4 + 4 * (t - 2*(j0+1))) :=
        funext fun i => by omega
      simp only [hfe]
      have hsub : t + 2 - 2*(0+1) = t := by omega
      rw [hsub, Nat.add_mod_right, add_assoc, ih t (by omega)]
      ring

lemma hexShell_len (m : ℕ) :
    ((List.range (m/2)).map
        (fun i => 8 + 12*(m - 2*(i+1)) + 6*(m - 2*(i+1))^2)).sum
      + (if m % 2 = 1 then 1 else 0) = m^3 := by
  induction m using Nat.strong_induction_on with
  | _ m ih =>
    by_cases h0 : m < 2
    · have h01 : m = 0 ∨ m = 1 := by omega
      rcases h01 with rfl | rfl <;> decide
    · obtain ⟨t, rfl⟩ : ∃ t, m = t + 2 := ⟨m - 2, by omega⟩
      have h2 : (t+2)/2 = t/2 + 1 := by omega
      rw [h2, sum_map_range_peel]
      have hfe : (fun i => 8 + 12*(t + 2 - 2*(i+1+1)) + 6*(t + 2 - 2*(i+1+1))^2)
          = (fun i => 8 + 12*(t - 2*(i+1)) + 6*(t - 2*(i+1))^2) :=
        funext fun i => by
          have he : t + 2 - 2*(i+1+1) = t - 2*(i+1) := by omega
          rw [he]
      simp only [hfe]
      have hsub : t + 2 - 2*(0+1) = t := by omega
      rw [hsub, Nat.add_mod_right, add_assoc, ih t (by omega)]
      ring

lemma faceBottom_mem_c0 (m i j0 : ℕ) (h : j0 < (m - 2*(i+1)) / 2) :
    encH m (j0+i+1) (j0+i+1) i ∈ faceBottom m i := by
  unfold faceBottom
  apply List.mem_append_left
  refine List.mem_flatMap.2 ⟨j0, List.mem_range.2 h, ?_⟩
  apply List.mem_append_left
  apply List.mem_append_left
  apply List.mem_append_left
  apply List.mem_append_left
  exact List.mem_cons_self _ _

lemma faceBottom_mem_c1 (m i j0 : ℕ) (h : j0 < (m - 2*(i+1)) / 2) :
    encH m (j0+i+1) (i+1+(m-2*(i+1)-1)-j0) i ∈ faceBottom m i := by
  unfold faceBottom
  apply List.mem_append_left
  refine List.mem_flatMap.2 ⟨j0, List.mem_range.2 h, ?_⟩
  apply List.mem_append_left
  apply List.mem_append_left
  apply List.mem_append_left
  apply List.mem_append_left
  exact List.mem_cons_of_mem _ (List.mem_cons_self _ _)

lemma faceBottom_mem_c2 (m i j0 : ℕ) (h : j0 < (m - 2*(i+1)) / 2) :
    encH m (i+1+(m-2*(i+1)-1)-j0) (i+1+(m-2*(i+1)-1)-j0) i ∈ faceBottom m i := by
  unfold faceBottom
  apply List.mem_append_left
  refine List.mem_flatMap.2 ⟨j0, List.mem_range.2 h, ?_⟩
  apply List.mem_append_left
  apply List.mem_append_left
  apply List.mem_append_left
  apply List.mem_append_left
  exact List.mem_cons_of_mem _ (List.mem_cons_of_mem _ (List.mem_cons_self _ _))

lemma faceBottom_mem_c3 (m i j0 : ℕ) (h : j0 < (m - 2*(i+1)) / 2) :
    encH m (i+1+(m-2*(i+1)-1)-j0) (j0+i+1) i ∈ faceBottom m i := by
  unfold faceBottom
  apply List.mem_append_left
  refine List.mem_flatMap.2 ⟨j0, List.mem_range.2 h, ?_⟩
  apply List.mem_append_left
  apply List.mem_append_left
  apply List.mem_append_left
  apply List.mem_append_left
  exact List.mem_cons_of_mem _ (List.mem_cons_of_mem _ (List.mem_cons_of_mem _ (List.mem_cons_self _ _)))

lemma faceBottom_mem_r0 (m i j0 k : ℕ) (h : j0 < (m - 2*(i+1)) / 2)
    (hk : k < m - 2*(i+1) - 2*(j0+1)) :
    encH m (j0+i+1) (j0+i+1+1+k) i ∈ faceBottom m i := by
  unfold faceBottom
  apply List.mem_append_left
  refine List.mem_flatMap.2 ⟨j0, List.mem_range.2 h, ?_⟩
  apply List.mem_append_left
  apply List.mem_append_left
  apply List.mem_append_left
  apply List.mem_append_right
  exact mem_map_range _ hk

lemma faceBottom_mem_r1 (m i j0 k : ℕ) (h : j0 < (m - 2*(i+1)) / 2)
    (hk : k < m - 2*(i+1) - 2*(j0+1)) :
    encH m (j0+i+1+1+k) (i+1+(m-2*(i+1)-1)-j0) i ∈ faceBottom m i := by
  unfold faceBottom
  apply List.mem_append_left
  refine List.mem_flatMap.2 ⟨j0, List.mem_range.2 h, ?_⟩
  apply List.mem_append_left
  apply List.mem_append_left
  apply List.mem_append_right
  exact mem_map_range _ hk

lemma faceBottom_mem_r2 (m i j0 k : ℕ) (h : j0 < (m - 2*(i+1)) / 2)
    (hk : k < m - 2*(i+1) - 2*(j0+1)) :
    encH m (i+1+(m-2*(i+1)-1)-j0) (i+1+(m-2*(i+1)-1)-j0-1-k) i ∈ faceBottom m i := by
  unfold faceBottom
  apply List.mem_append_left
  refine List.mem_flatMap.2 ⟨j0, List.mem_range.2 h, ?_⟩
  apply List.mem_append_left
  apply List.mem_append_right
  exact mem_map_range _ hk

lemma faceBottom_mem_r3 (m i j0 k : ℕ) (h : j0 < (m - 2*(i+1)) / 2)
    (hk : k < m - 2*(i+1) - 2*(j0+1)) :
    encH m (i+1+(m-2*(i+1)-1)-j0-1-k) (j0+i+1) i ∈ faceBottom m i := by
  unfold faceBottom
  apply List.mem_append_left
  refine List.mem_flatMap.2 ⟨j0, List.mem_range.2 h, ?_⟩
  apply List.mem_append_right
  exact mem_map_range _ hk

lemma faceBottom_mem_cen (m i : ℕ) (h : (m - 2*(i+1)) % 2 = 1) :
    encH m (m/2) (m/2) i ∈ faceBottom m i := by
  unfold faceBottom
  apply List.mem_append_right
  rw [if_pos h]
  exact List.mem_singleton.2 rfl

lemma faceFront_mem_c0 (m i j0 : ℕ) (h : j0 < (m - 2*(i+1)) / 2) :
    encH m (j0+i+1) i (j0+i+1) ∈ faceFront m i := by
  unfold faceFront
  apply List.mem_append_left
  refine List.mem_flatMap.2 ⟨j0, List.mem_range.2 h, ?_⟩
  apply List.mem_append_left
  apply List.mem_append_left
  apply List.mem_append_left
  apply List.mem_append_left
  exact List.mem_cons_self _ _

lemma faceFront_mem_c1 (m i j0 : ℕ) (h : j0 < (m - 2*(i+1)) / 2) :
    encH m (i+1+(m-2*(i+1)-1)-j0) i (j0+i+1) ∈ faceFront m i := by
  unfold faceFront
  apply List.mem_append_left
  refine List.mem_flatMap.2 ⟨j0, List.mem_range.2 h, ?_⟩
  apply List.mem_append_left
  apply List.mem_append_left
  apply List.mem_append_left
  apply List.mem_append_left
  exact List.mem_cons_of_mem _ (List.mem_cons_self _ _)

lemma faceFront_mem_c2 (m i j0 : ℕ) (h : j0 < (m - 2*(i+1)) / 2) :
    encH m (i+1+(m-2*(i+1)-1)-j0) i (i+1+(m-2*(i+1)-1)-j0) ∈ faceFront m i := by
  unfold faceFront
  apply List.mem_append_left
  refine List.mem_flatMap.2 ⟨j0, List.mem_range.2 h, ?_⟩
  apply List.mem_append_left
  apply List.mem_append_left
  apply List.mem_append_left
  apply List.mem_append_left
  exact List.mem_cons_of_mem _ (List.mem_cons_of_mem _ (List.mem_cons_self _ _))

lemma faceFront_mem_c3 (m i j0 : ℕ) (h : j0 < (m - 2*(i+1)) / 2) :
    encH m (j0+i+1) i (i+1+(m-2*(i+1)-1)-j0) ∈ faceFront m i := by
  unfold faceFront
  apply List.mem_append_left
  refine List.mem_flatMap.2 ⟨j0, List.mem_range.2 h, ?_⟩
  apply List.mem_append_left
  apply List.mem_append_left
  apply List.mem_append_left
  apply List.mem_append_left
  exact List.mem_cons_of_mem _ (List.mem_cons_of_mem _ (List.mem_cons_of_mem _ (List.mem_cons_self _ _)))

lemma faceFront_mem_r0 (m i j0 k : ℕ) (h : j0 < (m - 2*(i+1)) / 2)
    (hk : k < m - 2*(i+1) - 2*(j0+1)) :
    encH m (j0+i+1+1+k) i (j0+i+1) ∈ faceFront m i := by
  unfold faceFront
  apply List.mem_append_left
  refine List.mem_flatMap.2 ⟨j0, List.mem_range.2 h, ?_⟩
  apply List.mem_append_left
  apply List.mem_append_left
  apply List.mem_append_left
  apply List.mem_append_right
  exact mem_map_range _ hk

lemma faceFront_mem_r1 (m i j0 k : ℕ) (h : j0 < (m - 2*(i+1)) / 2)
    (hk : k < m - 2*(i+1) - 2*(j0+1)) :
    encH m (i+1+(m-2*(i+1)-1)-j0) i (j0+i+1+1+k) ∈ faceFront m i := by
  unfold faceFront
  apply List.mem_append_left
  refine List.mem_flatMap.2 ⟨j0, List.mem_range.2 h, ?_⟩
  apply List.mem_append_left
  apply List.mem_append_left
  apply List.mem_append_right
  exact mem_map_range _ hk

lemma faceFront_mem_r2 (m i j0 k : ℕ) (h : j0 < (m - 2*(i+1)) / 2)
    (hk : k < m - 2*(i+1) - 2*(j0+1)) :
    encH m (i+1+(m-2*(i+1)-1)-j0-1-k) i (i+1+(m-2*(i+1)-1)-j0) ∈ faceFront m i := by
  unfold faceFront
  apply List.mem_append_left
  refine List.mem_flatMap.2 ⟨j0, List.mem_range.2 h, ?_⟩
  apply List.mem_append_left
  apply List.mem_append_right
  exact mem_map_range _ hk

lemma faceFront_mem_r3 (m i j0 k : ℕ) (h : j0 < (m - 2*(i+1)) / 2)
    (hk : k < m - 2*(i+1) - 2*(j0+1)) :
    encH m (j0+i+1) i (i+1+(m-2*(i+1)-1)-j0-1-k) ∈ faceFront m i := by
  unfold faceFront
  apply List.mem_append_left
  refine List.mem_flatMap.2 ⟨j0, List.mem_range.2 h, ?_⟩
  apply List.mem_append_right
  exact mem_map_range _ hk

lemma faceFront_mem_cen (m i : ℕ) (h : (m - 2*(i+1)) % 2 = 1) :
    encH m (m/2) i (m/2) ∈ faceFront m i := by
  unfold faceFront
  apply List.mem_append_right
  rw [if_pos h]
  exact List.mem_singleton.2 rfl

lemma faceLeft_mem_c0 (m i j0 : ℕ) (h : j0 < (m - 2*(i+1)) / 2) :
    encH m i (j0+i+1) (j0+i+1) ∈ faceLeft m i := by
  unfold faceLeft
  apply List.mem_append_left
  refine List.mem_flatMap.2 ⟨j0, List.mem_range.2 h, ?_⟩
  apply List.mem_append_left
  apply List.mem_append_left
  apply List.mem_append_left
  apply List.mem_append_left
  exact List.mem_cons_self _ _

lemma faceLeft_mem_c1 (m i j0 : ℕ) (h : j0 < (m - 2*(i+1)) / 2) :
    encH m i (j0+i+1) (i+1+(m-2*(i+1)-1)-j0) ∈ faceLeft m i := by
  unfold faceLeft
  apply List.mem_append_left
  refine List.mem_flatMap.2 ⟨j0, List.mem_range.2 h, ?_⟩
  apply List.mem_append_left
  apply List.mem_append_left
  apply List.mem_append_left
  apply List.mem_append_left
  exact List.mem_cons_of_mem _ (List.mem_cons_self _ _)

lemma faceLeft_mem_c2 (m i j0 : ℕ) (h : j0 < (m - 2*(i+1)) / 2) :
    encH m i (i+1+(m-2*(i+1)-1)-j0) (i+1+(m-2*(i+1)-1)-j0) ∈ faceLeft m i := by
  unfold faceLeft
  apply List.mem_append_left
  refine List.mem_flatMap.2 ⟨j0, List.mem_range.2 h, ?_⟩
  apply List.mem_append_left
  apply List.mem_append_left
  apply List.mem_append_left
  apply List.mem_append_left
  exact List.mem_cons_of_mem _ (List.mem_cons_of_mem _ (List.mem_cons_self _ _))

lemma faceLeft_mem_c3 (m i j0 : ℕ) (h : j0 < (m - 2*(i+1)) / 2) :
    encH m i (i+1+(m-2*(i+1)-1)-j0) (j0+i+1) ∈ faceLeft m i := by
  unfold faceLeft
  apply List.mem_append_left
  refine List.mem_flatMap.2 ⟨j0, List.mem_range.2 h, ?_⟩
  apply List.mem_append_left
  apply List.mem_append_left
  apply List.mem_append_left
  apply List.mem_append_left
  exact List.mem_cons_of_mem _ (List.mem_cons_of_mem _ (List.mem_cons_of_mem _ (List.mem_cons_self _ _)))

lemma faceLeft_mem_r0 (m i j0 k : ℕ) (h : j0 < (m - 2*(i+1)) / 2)
    (hk : k < m - 2*(i+1) - 2*(j0+1)) :
    encH m i (j0+i+1) (j0+i+1+1+k) ∈ faceLeft m i := by
  unfold faceLeft
  apply List.mem_append_left
  refine List.mem_flatMap.2 ⟨j0, List.mem_range.2 h, ?_⟩
  apply List.mem_append_left
  apply List.mem_append_left
  apply List.mem_append_left
  apply List.mem_append_right
  exact mem_map_range _ hk

lemma faceLeft_mem_r1 (m i j0 k : ℕ) (h : j0 < (m - 2*(i+1)) / 2)
    (hk : k < m - 2*(i+1) - 2*(j0+1)) :
    encH m i (j0+i+1+1+k) (i+1+(m-2*(i+1)-1)-j0) ∈ faceLeft m i := by
  unfold faceLeft
  apply List.mem_append_left
  refine List.mem_flatMap.2 ⟨j0, List.mem_range.2 h, ?_⟩
  apply List.mem_append_left
  apply List.mem_append_left
  apply List.mem_append_right
  exact mem_map_range _ hk

lemma faceLeft_mem_r2 (m i j0 k : ℕ) (h : j0 < (m - 2*(i+1)) / 2)
    (hk : k < m - 2*(i+1) - 2*(j0+1)) :
    encH m i (i+1+(m-2*(i+1)-1)-j0) (i+1+(m-2*(i+1)-1)-j0-1-k) ∈ faceLeft m i := by
  unfold faceLeft
  apply List.mem_append_left
  refine List.mem_flatMap.2 ⟨j0, List.mem_range.2 h, ?_⟩
  apply List.mem_append_left
  apply List.mem_append_right
  exact mem_map_range _ hk

lemma faceLeft_mem_r3 (m i j0 k : ℕ) (h : j0 < (m - 2*(i+1)) / 2)
    (hk : k < m - 2*(i+1) - 2*(j0+1)) :
    encH m i (i+1+(m-2*(i+1)-1)-j0-1-k) (j0+i+1) ∈ faceLeft m i := by
  unfold faceLeft
  apply List.mem_append_left
  refine List.mem_flatMap.2 ⟨j0, List.mem_range.2 h, ?_⟩
  apply List.mem_append_right
  exact mem_map_range _ hk

lemma faceLeft_mem_cen (m i : ℕ) (h : (m - 2*(i+1)) % 2 = 1) :
    encH m i (m/2) (m/2) ∈ faceLeft m i := by
  unfold faceLeft
  apply List.mem_append_right
  rw [if_pos h]
  exact List.mem_singleton.2 rfl

lemma faceRight_mem_c0 (m i j0 : ℕ) (h : j0 < (m - 2*(i+1)) / 2) :
    encH m (m-1-i) (j0+i+1) (j0+i+1) ∈ faceRight m i := by
  unfold faceRight
  apply List.mem_append_left
  refine List.mem_flatMap.2 ⟨j0, List.mem_range.2 h, ?_⟩
  apply List.mem_append_left
  apply List.mem_append_left
  apply List.mem_append_left
  apply List.mem_append_left
  exact List.mem_cons_self _ _

lemma faceRight_mem_c1 (m i j0 : ℕ) (h : j0 < (m - 2*(i+1)) / 2) :
    encH m (m-1-i) (i+1+(m-2*(i+1)-1)-j0) (j0+i+1) ∈ faceRight m i := by
  unfold faceRight
  apply List.mem_append_left
  refine List.mem_flatMap.2 ⟨j0, List.mem_range.2 h, ?_⟩
  apply List.mem_append_left
  apply List.mem_append_left
  apply List.mem_append_left
  apply List.mem_append_left
  exact List.mem_cons_of_mem _ (List.mem_cons_self _ _)

lemma faceRight_mem_c2 (m i j0 : ℕ) (h : j0 < (m - 2*(i+1)) / 2) :
    encH m (m-1-i) (i+1+(m-2*(i+1)-1)-j0) (i+1+(m-2*(i+1)-1)-j0) ∈ faceRight m i := by
  unfold faceRight
  apply List.mem_append_left
  refine List.mem_flatMap.2 ⟨j0, List.mem_range.2 h, ?_⟩
  apply List.mem_append_left
  apply List.mem_append_left
  apply List.mem_append_left
  apply List.mem_append_left
  exact List.mem_cons_of_mem _ (List.mem_cons_of_mem _ (List.mem_cons_self _ _))

lemma faceRight_mem_c3 (m i j0 : ℕ) (h : j0 < (m - 2*(i+1)) / 2) :
    encH m (m-1-i) (j0+i+1) (i+1+(m-2*(i+1)-1)-j0) ∈ faceRight m i := by
  unfold faceRight
  apply List.mem_append_left
  refine List.mem_flatMap.2 ⟨j0, List.mem_range.2 h, ?_⟩
  apply List.mem_append_left
  apply List.mem_append_left
  apply List.mem_append_left
  apply List.mem_append_left
  exact List.mem_cons_of_mem _ (List.mem_cons_of_mem _ (List.mem_cons_of_mem _ (List.mem_cons_self _ _)))

lemma faceRight_mem_r0 (m i j0 k : ℕ) (h : j0 < (m - 2*(i+1)) / 2)
    (hk : k < m - 2*(i+1) - 2*(j0+1)) :
    encH m (m-1-i) (j0+i+1+1+k) (j0+i+1) ∈ faceRight m i := by
  unfold faceRight
  apply List.mem_append_left
  refine List.mem_flatMap.2 ⟨j0, List.mem_range.2 h, ?_⟩
  apply List.mem_append_left
  apply List.mem_append_left
  apply List.mem_append_left
  apply List.mem_append_right
  exact mem_map_range _ hk

lemma faceRight_mem_r1 (m i j0 k : ℕ) (h : j0 < (m - 2*(i+1)) / 2)
    (hk : k < m - 2*(i+1) - 2*(j0+1)) :
    encH m (m-1-i) (i+1+(m-2*(i+1)-1)-j0) (j0+i+1+1+k) ∈ faceRight m i := by
  unfold faceRight
  apply List.mem_append_left
  refine List.mem_flatMap.2 ⟨j0, List.mem_range.2 h, ?_⟩
  apply List.mem_append_left
  apply List.mem_append_left
  apply List.mem_append_right
  exact mem_map_range _ hk

lemma faceRight_mem_r2 (m i j0 k : ℕ) (h : j0 < (m - 2*(i+1)) / 2)
    (hk : k < m - 2*(i+1) - 2*(j0+1)) :
    encH m (m-1-i) (i+1+(m-2*(i+1)-1)-j0-1-k) (i+1+(m-2*(i+1)-1)-j0) ∈ faceRight m i := by
  unfold faceRight
  apply List.mem_append_left
  refine List.mem_flatMap.2 ⟨j0, List.mem_range.2 h, ?_⟩
  apply List.mem_append_left
  apply List.mem_append_right
  exact mem_map_range _ hk

lemma faceRight_mem_r3 (m i j0 k : ℕ) (h : j0 < (m - 2*(i+1)) / 2)
    (hk : k < m - 2*(i+1) - 2*(j0+1)) :
    encH m (m-1-i) (j0+i+1) (i+1+(m-2*(i+1)-1)-j0-1-k) ∈ faceRight m i := by
  unfold faceRight
  apply List.mem_append_left
  refine List.mem_flatMap.2 ⟨j0, List.mem_range.2 h, ?_⟩
  apply List.mem_append_right
  exact mem_map_range _ hk

lemma faceRight_mem_cen (m i : ℕ) (h : (m - 2*(i+1)) % 2 = 1) :
    encH m (m-1-i) (m/2) (m/2) ∈ faceRight m i := by
  unfold faceRight
  apply List.mem_append_right
  rw [if_pos h]
  exact List.mem_singleton.2 rfl

lemma faceBack_mem_c0 (m i j0 : ℕ) (h : j0 < (m - 2*(i+1)) / 2) :
    encH m (i+1+(m-2*(i+1)-1)-j0) (m-1-i) (j0+i+1) ∈ faceBack m i := by
  unfold faceBack
  apply List.mem_append_left
  refine List.mem_flatMap.2 ⟨j0, List.mem_range.2 h, ?_⟩
  apply List.mem_append_left
  apply List.mem_append_left
  apply List.mem_append_left
  apply List.mem_append_left
  exact List.mem_cons_self _ _

lemma faceBack_mem_c1 (m i j0 : ℕ) (h : j0 < (m - 2*(i+1)) / 2) :
    encH m (j0+i+1) (m-1-i) (j0+i+1) ∈ faceBack m i := by
  unfold faceBack
  apply List.mem_append_left
  refine List.mem_flatMap.2 ⟨j0, List.mem_range.2 h, ?_⟩
  apply List.mem_append_left
  apply List.mem_append_left
  apply List.mem_append_left
  apply List.mem_append_left
  exact List.mem_cons_of_mem _ (List.mem_cons_self _ _)

lemma faceBack_mem_c2 (m i j0 : ℕ) (h : j0 < (m - 2*(i+1)) / 2) :
    encH m (j0+i+1) (m-1-i) (i+1+(m-2*(i+1)-1)-j0) ∈ faceBack m i := by
  unfold faceBack
  apply List.mem_append_left
  refine List.mem_flatMap.2 ⟨j0, List.mem_range.2 h, ?_⟩
  apply List.mem_append_left
  apply List.mem_append_left
  apply List.mem_append_left
  apply List.mem_append_left
  exact List.mem_cons_of_mem _ (List.mem_cons_of_mem _ (List.mem_cons_self _ _))

lemma faceBack_mem_c3 (m i j0 : ℕ) (h : j0 < (m - 2*(i+1)) / 2) :
    encH m (i+1+(m-2*(i+1)-1)-j0) (m-1-i) (i+1+(m-2*(i+1)-1)-j0) ∈ faceBack m i := by
  unfold faceBack
  apply List.mem_append_left
  refine List.mem_flatMap.2 ⟨j0, List.mem_range.2 h, ?_⟩
  apply List.mem_append_left
  apply List.mem_append_left
  apply List.mem_append_left
  apply List.mem_append_left
  exact List.mem_cons_of_mem _ (List.mem_cons_of_mem _ (List.mem_cons_of_mem _ (List.mem_cons_self _ _)))

lemma faceBack_mem_r0 (m i j0 k : ℕ) (h : j0 < (m - 2*(i+1)) / 2)
    (hk : k < m - 2*(i+1) - 2*(j0+1)) :
    encH m (i+1+(m-2*(i+1)-1)-j0-1-k) (m-1-i) (j0+i+1) ∈ faceBack m i := by
  unfold faceBack
  apply List.mem_append_left
  refine List.mem_flatMap.2 ⟨j0, List.mem_range.2 h, ?_⟩
  apply List.mem_append_left
  apply List.mem_append_left
  apply List.mem_append_left
  apply List.mem_append_right
  exact mem_map_range _ hk

lemma faceBack_mem_r1 (m i j0 k : ℕ) (h : j0 < (m - 2*(i+1)) / 2)
    (hk : k < m - 2*(i+1) - 2*(j0+1)) :
    encH m (j0+i+1) (m-1-i) (j0+i+1+1+k) ∈ faceBack m i := by
  unfold faceBack
  apply List.mem_append_left
  refine List.mem_flatMap.2 ⟨j0, List.mem_range.2 h, ?_⟩
  apply List.mem_append_left
  apply List.mem_append_left
  apply List.mem_append_right
  exact mem_map_range _ hk

lemma faceBack_mem_r2 (m i j0 k : ℕ) (h : j0 < (m - 2*(i+1)) / 2)
    (hk : k < m - 2*(i+1) - 2*(j0+1)) :
    encH m (j0+i+1+1+k) (m-1-i) (i+1+(m-2*(i+1)-1)-j0) ∈ faceBack m i := by
  unfold faceBack
  apply List.mem_append_left
  refine List.mem_flatMap.2 ⟨j0, List.mem_range.2 h, ?_⟩
  apply List.mem_append_left
  apply List.mem_append_right
  exact mem_map_range _ hk

lemma faceBack_mem_r3 (m i j0 k : ℕ) (h : j0 < (m - 2*(i+1)) / 2)
    (hk : k < m - 2*(i+1) - 2*(j0+1)) :
    encH m (i+1+(m-2*(i+1)-1)-j0) (m-1-i) (i+1+(m-2*(i+1)-1)-j0-1-k) ∈ faceBack m i := by
  unfold faceBack
  apply List.mem_append_left
  refine List.mem_flatMap.2 ⟨j0, List.mem_range.2 h, ?_⟩
  apply List.mem_append_right
  exact mem_map_range _ hk

lemma faceBack_mem_cen (m i : ℕ) (h : (m - 2*(i+1)) % 2 = 1) :
    encH m (m/2) (m-1-i) (m/2) ∈ faceBack m i := by
  unfold faceBack
  apply List.mem_append_right
  rw [if_pos h]
  exact List.mem_singleton.2 rfl

lemma faceTop_mem_c0 (m i j0 : ℕ) (h : j0 < (m - 2*(i+1)) / 2) :
    encH m (j0+i+1) (j0+i+1) (m-1-i) ∈ faceTop m i := by
  unfold faceTop
  apply List.mem_append_left
  refine List.mem_flatMap.2 ⟨j0, List.mem_range.2 h, ?_⟩
  apply List.mem_append_left
  apply List.mem_append_left
  apply List.mem_append_left
  apply List.mem_append_left
  exact List.mem_cons_self _ _

lemma faceTop_mem_c1 (m i j0 : ℕ) (h : j0 < (m - 2*(i+1)) / 2) :
    encH m (i+1+(m-2*(i+1)-1)-j0) (j0+i+1) (m-1-i) ∈ faceTop m i := by
  unfold faceTop
  apply List.mem_append_left
  refine List.mem_flatMap.2 ⟨j0, List.mem_range.2 h, ?_⟩
  apply List.mem_append_left
  apply List.mem_append_left
  apply List.mem_append_left
  apply List.mem_append_left
  exact List.mem_cons_of_mem _ (List.mem_cons_self _ _)

lemma faceTop_mem_c2 (m i j0 : ℕ) (h : j0 < (m - 2*(i+1)) / 2) :
    encH m (i+1+(m-2*(i+1)-1)-j0) (i+1+(m-2*(i+1)-1)-j0) (m-1-i) ∈ faceTop m i := by
  unfold faceTop
  apply List.mem_append_left
  refine List.mem_flatMap.2 ⟨j0, List.mem_range.2 h, ?_⟩
  apply List.mem_append_left
  apply List.mem_append_left
  apply List.mem_append_left
  apply List.mem_append_left
  exact List.mem_cons_of_mem _ (List.mem_cons_of_mem _ (List.mem_cons_self _ _))

lemma faceTop_mem_c3 (m i j0 : ℕ) (h : j0 < (m - 2*(i+1)) / 2) :
    encH m (j0+i+1) (i+1+(m-2*(i+1)-1)-j0) (m-1-i) ∈ faceTop m i := by
  unfold faceTop
  apply List.mem_append_left
  refine List.mem_flatMap.2 ⟨j0, List.mem_range.2 h, ?_⟩
  apply List.mem_append_left
  apply List.mem_append_left
  apply List.mem_append_left
  apply List.mem_append_left
  exact List.mem_cons_of_mem _ (List.mem_cons_of_mem _ (List.mem_cons_of_mem _ (List.mem_cons_self _ _)))

lemma faceTop_mem_r0 (m i j0 k : ℕ) (h : j0 < (m - 2*(i+1)) / 2)
    (hk : k < m - 2*(i+1) - 2*(j0+1)) :
    encH m (j0+i+1+1+k) (j0+i+1) (m-1-i) ∈ faceTop m i := by
  unfold faceTop
  apply List.mem_append_left
  refine List.mem_flatMap.2 ⟨j0, List.mem_range.2 h, ?_⟩
  apply List.mem_append_left
  apply List.mem_append_left
  apply List.mem_append_left
  apply List.mem_append_right
  exact mem_map_range _ hk

lemma faceTop_mem_r1 (m i j0 k : ℕ) (h : j0 < (m - 2*(i+1)) / 2)
    (hk : k < m - 2*(i+1) - 2*(j0+1)) :
    encH m (i+1+(m-2*(i+1)-1)-j0) (j0+i+1+1+k) (m-1-i) ∈ faceTop m i := by
  unfold faceTop
  apply List.mem_append_left
  refine List.mem_flatMap.2 ⟨j0, List.mem_range.2 h, ?_⟩
  apply List.mem_append_left
  apply List.mem_append_left
  apply List.mem_append_right
  exact mem_map_range _ hk

lemma faceTop_mem_r2 (m i j0 k : ℕ) (h : j0 < (m - 2*(i+1)) / 2)
    (hk : k < m - 2*(i+1) - 2*(j0+1)) :
    encH m (i+1+(m-2*(i+1)-1)-j0-1-k) (i+1+(m-2*(i+1)-1)-j0) (m-1-i) ∈ faceTop m i := by
  unfold faceTop
  apply List.mem_append_left
  refine List.mem_flatMap.2 ⟨j0, List.mem_range.2 h, ?_⟩
  apply List.mem_append_left
  apply List.mem_append_right
  exact mem_map_range _ hk

lemma faceTop_mem_r3 (m i j0 k : ℕ) (h : j0 < (m - 2*(i+1)) / 2)
    (hk : k < m - 2*(i+1) - 2*(j0+1)) :
    encH m (j0+i+1) (i+1+(m-2*(i+1)-1)-j0-1-k) (m-1-i) ∈ faceTop m i := by
  unfold faceTop
  apply List.mem_append_left
  refine List.mem_flatMap.2 ⟨j0, List.mem_range.2 h, ?_⟩
  apply List.mem_append_right
  exact mem_map_range _ hk

lemma faceTop_mem_cen (m i : ℕ) (h : (m - 2*(i+1)) % 2 = 1) :
    encH m (m/2) (m/2) (m-1-i) ∈ faceTop m i := by
  unfold faceTop
  apply List.mem_append_right
  rw [if_pos h]
  exact List.mem_singleton.2 rfl

lemma faceBottom_cover (m i a b : ℕ) (ha1 : i + 1 ≤ a) (ha2 : a + i + 2 ≤ m)
    (hb1 : i + 1 ≤ b) (hb2 : b + i + 2 ≤ m) :
    encH m (a) (b) i ∈ faceBottom m i := by
  by_cases hcen : (m - 2*(i+1)) % 2 = 1 ∧ a = m/2 ∧ b = m/2
  · obtain ⟨h1, rfl, rfl⟩ := hcen
    exact faceBottom_mem_cen m i h1
  · obtain ⟨q, hq⟩ : ∃ q, q = min (min (a - (i+1)) (b - (i+1))) (min ((m-2-i) - a) ((m-2-i) - b)) :=
      ⟨_, rfl⟩
    have hq1 : q + i + 1 ≤ a ∧ a + q + i + 2 ≤ m ∧ q + i + 1 ≤ b ∧ b + q + i + 2 ≤ m := by
      omega
    have hq2 : a = q + i + 1 ∨ a + q + i + 2 = m ∨ b = q + i + 1 ∨ b + q + i + 2 = m := by
      omega
    have hql : q < (m - 2*(i+1)) / 2 := by omega
    clear hq hcen
    obtain ⟨hqa, hqb, hqc, hqd⟩ := hq1
    have hcls : (a = q+i+1 ∧ b = q+i+1)
        ∨ (a = q+i+1 ∧ b = i+1+(m-2*(i+1)-1)-q)
        ∨ (a = i+1+(m-2*(i+1)-1)-q ∧ b = i+1+(m-2*(i+1)-1)-q)
        ∨ (a = i+1+(m-2*(i+1)-1)-q ∧ b = q+i+1)
        ∨ (a = q+i+1 ∧ (q+i+1 < b ∧ b < i+1+(m-2*(i+1)-1)-q))
        ∨ (a = i+1+(m-2*(i+1)-1)-q ∧ (q+i+1 < b ∧ b < i+1+(m-2*(i+1)-1)-q))
        ∨ (b = q+i+1 ∧ (q+i+1 < a ∧ a < i+1+(m-2*(i+1)-1)-q))
        ∨ (b = i+1+(m-2*(i+1)-1)-q ∧ (q+i+1 < a ∧ a < i+1+(m-2*(i+1)-1)-q)) := by
      rcases hq2 with h | h | h | h <;> omega
    rcases hcls with ⟨rfl, rfl⟩ | ⟨rfl, rfl⟩ | ⟨rfl, rfl⟩ | ⟨rfl, rfl⟩ | ⟨rfl, hm1, hm2⟩ | ⟨rfl, hm1, hm2⟩ | ⟨rfl, hm1, hm2⟩ | ⟨rfl, hm1, hm2⟩
    · exact faceBottom_mem_c0 m i q hql
    · exact faceBottom_mem_c1 m i q hql
    · exact faceBottom_mem_c2 m i q hql
    · exact faceBottom_mem_c3 m i q hql
    · have hrw : b = q+i+1+1+(b - (q+i+1+1)) := by omega
      rw [hrw]
      exact faceBottom_mem_r0 m i q (b - (q+i+1+1)) hql (by omega)
    · have hrw : b = i+1+(m-2*(i+1)-1)-q-1-(i+1+(m-2*(i+1)-1)-q-1-b) := by omega
      rw [hrw]
      exact faceBottom_mem_r2 m i q (i+1+(m-2*(i+1)-1)-q-1-b) hql (by omega)
    · have hrw : a = i+1+(m-2*(i+1)-1)-q-1-(i+1+(m-2*(i+1)-1)-q-1-a) := by omega
      rw [hrw]
      exact faceBottom_mem_r3 m i q (i+1+(m-2*(i+1)-1)-q-1-a) hql (by omega)
    · have hrw : a = q+i+1+1+(a - (q+i+1+1)) := by omega
      rw [hrw]
      exact faceBottom_mem_r1 m i q (a - (q+i+1+1)) hql (by omega)

lemma faceFront_cover (m i a b : ℕ) (ha1 : i + 1 ≤ a) (ha2 : a + i + 2 ≤ m)
    (hb1 : i + 1 ≤ b) (hb2 : b + i + 2 ≤ m) :
    encH m (a) i (b) ∈ faceFront m i := by
  by_cases hcen : (m - 2*(i+1)) % 2 = 1 ∧ a = m/2 ∧ b = m/2
  · obtain ⟨h1, rfl, rfl⟩ := hcen
    exact faceFront_mem_cen m i h1
  · obtain ⟨q, hq⟩ : ∃ q, q = min (min (a - (i+1)) (b - (i+1))) (min ((m-2-i) - a) ((m-2-i) - b)) :=
      ⟨_, rfl⟩
    have hq1 : q + i + 1 ≤ a ∧ a + q + i + 2 ≤ m ∧ q + i + 1 ≤ b ∧ b + q + i + 2 ≤ m := by
      omega
    have hq2 : a = q + i + 1 ∨ a + q + i + 2 = m ∨ b = q + i + 1 ∨ b + q + i + 2 = m := by
      omega
    have hql : q < (m - 2*(i+1)) / 2 := by omega
    clear hq hcen
    obtain ⟨hqa, hqb, hqc, hqd⟩ := hq1
    have hcls : (a = q+i+1 ∧ b = q+i+1)
        ∨ (a = q+i+1 ∧ b = i+1+(m-2*(i+1)-1)-q)
        ∨ (a = i+1+(m-2*(i+1)-1)-q ∧ b = i+1+(m-2*(i+1)-1)-q)
        ∨ (a = i+1+(m-2*(i+1)-1)-q ∧ b = q+i+1)
        ∨ (a = q+i+1 ∧ (q+i+1 < b ∧ b < i+1+(m-2*(i+1)-1)-q))
        ∨ (a = i+1+(m-2*(i+1)-1)-q ∧ (q+i+1 < b ∧ b < i+1+(m-2*(i+1)-1)-q))
        ∨ (b = q+i+1 ∧ (q+i+1 < a ∧ a < i+1+(m-2*(i+1)-1)-q))
        ∨ (b = i+1+(m-2*(i+1)-1)-q ∧ (q+i+1 < a ∧ a < i+1+(m-2*(i+1)-1)-q)) := by
      rcases hq2 with h | h | h | h <;> omega
    rcases hcls with ⟨rfl, rfl⟩ | ⟨rfl, rfl⟩ | ⟨rfl, rfl⟩ | ⟨rfl, rfl⟩ | ⟨rfl, hm1, hm2⟩ | ⟨rfl, hm1, hm2⟩ | ⟨rfl, hm1, hm2⟩ | ⟨rfl, hm1, hm2⟩
    · exact faceFront_mem_c0 m i q hql
    · exact faceFront_mem_c3 m i q hql
    · exact faceFront_mem_c2 m i q hql
    · exact faceFront_mem_c1 m i q hql
    · have hrw : b = i+1+(m-2*(i+1)-1)-q-1-(i+1+(m-2*(i+1)-1)-q-1-b) := by omega
      rw [hrw]
      exact faceFront_mem_r3 m i q (i+1+(m-2*(i+1)-1)-q-1-b) hql (by omega)
    · have hrw : b = q+i+1+1+(b - (q+i+1+1)) := by omega
      rw [hrw]
      exact faceFront_mem_r1 m i q (b - (q+i+1+1)) hql (by omega)
    · have hrw : a = q+i+1+1+(a - (q+i+1+1)) := by omega
      rw [hrw]
      exact faceFront_mem_r0 m i q (a - (q+i+1+1)) hql (by omega)
    · have hrw : a = i+1+(m-2*(i+1)-1)-q-1-(i+1+(m-2*(i+1)-1)-q-1-a) := by omega
      rw [hrw]
      exact faceFront_mem_r2 m i q (i+1+(m-2*(i+1)-1)-q-1-a) hql (by omega)

lemma faceLeft_cover (m i a b : ℕ) (ha1 : i + 1 ≤ a) (ha2 : a + i + 2 ≤ m)
    (hb1 : i + 1 ≤ b) (hb2 : b + i + 2 ≤ m) :
    encH m i (a) (b) ∈ faceLeft m i := by
  by_cases hcen : (m - 2*(i+1)) % 2 = 1 ∧ a = m/2 ∧ b = m/2
  · obtain ⟨h1, rfl, rfl⟩ := hcen
    exact faceLeft_mem_cen m i h1
  · obtain ⟨q, hq⟩ : ∃ q, q = min (min (a - (i+1)) (b - (i+1))) (min ((m-2-i) - a) ((m-2-i) - b)) :=
      ⟨_, rfl⟩
    have hq1 : q + i + 1 ≤ a ∧ a + q + i + 2 ≤ m ∧ q + i + 1 ≤ b ∧ b + q + i + 2 ≤ m := by
      omega
    have hq2 : a = q + i + 1 ∨ a + q + i + 2 = m ∨ b = q + i + 1 ∨ b + q + i + 2 = m := by
      omega
    have hql : q < (m - 2*(i+1)) / 2 := by omega
    clear hq hcen
    obtain ⟨hqa, hqb, hqc, hqd⟩ := hq1
    have hcls : (a = q+i+1 ∧ b = q+i+1)
        ∨ (a = q+i+1 ∧ b = i+1+(m-2*(i+1)-1)-q)
        ∨ (a = i+1+(m-2*(i+1)-1)-q ∧ b = i+1+(m-2*(i+1)-1)-q)
        ∨ (a = i+1+(m-2*(i+1)-1)-q ∧ b = q+i+1)
        ∨ (a = q+i+1 ∧ (q+i+1 < b ∧ b < i+1+(m-2*(i+1)-1)-q))
        ∨ (a = i+1+(m-2*(i+1)-1)-q ∧ (q+i+1 < b ∧ b < i+1+(m-2*(i+1)-1)-q))
        ∨ (b = q+i+1 ∧ (q+i+1 < a ∧ a < i+1+(m-2*(i+1)-1)-q))
        ∨ (b = i+1+(m-2*(i+1)-1)-q ∧ (q+i+1 < a ∧ a < i+1+(m-2*(i+1)-1)-q)) := by
      rcases hq2 with h | h | h | h <;> omega
    rcases hcls with ⟨rfl, rfl⟩ | ⟨rfl, rfl⟩ | ⟨rfl, rfl⟩ | ⟨rfl, rfl⟩ | ⟨rfl, hm1, hm2⟩ | ⟨rfl, hm1, hm2⟩ | ⟨rfl, hm1, hm2⟩ | ⟨rfl, hm1, hm2⟩
    · exact faceLeft_mem_c0 m i q hql
    · exact faceLeft_mem_c1 m i q hql
    · exact faceLeft_mem_c2 m i q hql
    · exact faceLeft_mem_c3 m i q hql
    · have hrw : b = q+i+1+1+(b - (q+i+1+1)) := by omega
      rw [hrw]
      exact faceLeft_mem_r0 m i q (b - (q+i+1+1)) hql (by omega)
    · have hrw : b = i+1+(m-2*(i+1)-1)-q-1-(i+1+(m-2*(i+1)-1)-q-1-b) := by omega
      rw [hrw]
      exact faceLeft_mem_r2 m i q (i+1+(m-2*(i+1)-1)-q-1-b) hql (by omega)
    · have hrw : a = i+1+(m-2*(i+1)-1)-q-1-(i+1+(m-2*(i+1)-1)-q-1-a) := by omega
      rw [hrw]
      exact faceLeft_mem_r3 m i q (i+1+(m-2*(i+1)-1)-q-1-a) hql (by omega)
    · have hrw : a = q+i+1+1+(a - (q+i+1+1)) := by omega
      rw [hrw]
      exact faceLeft_mem_r1 m i q (a - (q+i+1+1)) hql (by omega)

lemma faceRight_cover (m i a b : ℕ) (ha1 : i + 1 ≤ a) (ha2 : a + i + 2 ≤ m)
    (hb1 : i + 1 ≤ b) (hb2 : b + i + 2 ≤ m) :
    encH m (m-1-i) (a) (b) ∈ faceRight m i := by
  by_cases hcen : (m - 2*(i+1)) % 2 = 1 ∧ a = m/2 ∧ b = m/2
  · obtain ⟨h1, rfl, rfl⟩ := hcen
    exact faceRight_mem_cen m i h1
  · obtain ⟨q, hq⟩ : ∃ q, q = min (min (a - (i+1)) (b - (i+1))) (min ((m-2-i) - a) ((m-2-i) - b)) :=
      ⟨_, rfl⟩
    have hq1 : q + i + 1 ≤ a ∧ a + q + i + 2 ≤ m ∧ q + i + 1 ≤ b ∧ b + q + i + 2 ≤ m := by
      omega
    have hq2 : a = q + i + 1 ∨ a + q + i + 2 = m ∨ b = q + i + 1 ∨ b + q + i + 2 = m := by
      omega
    have hql : q < (m - 2*(i+1)) / 2 := by omega
    clear hq hcen
    obtain ⟨hqa, hqb, hqc, hqd⟩ := hq1
    have hcls : (a = q+i+1 ∧ b = q+i+1)
        ∨ (a = q+i+1 ∧ b = i+1+(m-2*(i+1)-1)-q)
        ∨ (a = i+1+(m-2*(i+1)-1)-q ∧ b = i+1+(m-2*(i+1)-1)-q)
        ∨ (a = i+1+(m-2*(i+1)-1)-q ∧ b = q+i+1)
        ∨ (a = q+i+1 ∧ (q+i+1 < b ∧ b < i+1+(m-2*(i+1)-1)-q))
        ∨ (a = i+1+(m-2*(i+1)-1)-q ∧ (q+i+1 < b ∧ b < i+1+(m-2*(i+1)-1)-q))
        ∨ (b = q+i+1 ∧ (q+i+1 < a ∧ a < i+1+(m-2*(i+1)-1)-q))
        ∨ (b = i+1+(m-2*(i+1)-1)-q ∧ (q+i+1 < a ∧ a < i+1+(m-2*(i+1)-1)-q)) := by
      rcases hq2 with h | h | h | h <;> omega
    rcases hcls with ⟨rfl, rfl⟩ | ⟨rfl, rfl⟩ | ⟨rfl, rfl⟩ | ⟨rfl, rfl⟩ | ⟨rfl, hm1, hm2⟩ | ⟨rfl, hm1, hm2⟩ | ⟨rfl, hm1, hm2⟩ | ⟨rfl, hm1, hm2⟩
    · exact faceRight_mem_c0 m i q hql
    · exact faceRight_mem_c3 m i q hql
    · exact faceRight_mem_c2 m i q hql
    · exact faceRight_mem_c1 m i q hql
    · have hrw : b = i+1+(m-2*(i+1)-1)-q-1-(i+1+(m-2*(i+1)-1)-q-1-b) := by omega
      rw [hrw]
      exact faceRight_mem_r3 m i q (i+1+(m-2*(i+1)-1)-q-1-b) hql (by omega)
    · have hrw : b = q+i+1+1+(b - (q+i+1+1)) := by omega
      rw [hrw]
      exact faceRight_mem_r1 m i q (b - (q+i+1+1)) hql (by omega)
    · have hrw : a = q+i+1+1+(a - (q+i+1+1)) := by omega
      rw [hrw]
      exact faceRight_mem_r0 m i q (a - (q+i+1+1)) hql (by omega)
    · have hrw : a = i+1+(m-2*(i+1)-1)-q-1-(i+1+(m-2*(i+1)-1)-q-1-a) := by omega
      rw [hrw]
      exact faceRight_mem_r2 m i q (i+1+(m-2*(i+1)-1)-q-1-a) hql (by omega)

lemma faceBack_cover (m i a b : ℕ) (ha1 : i + 1 ≤ a) (ha2 : a + i + 2 ≤ m)
    (hb1 : i + 1 ≤ b) (hb2 : b + i + 2 ≤ m) :
    encH m (a) (m-1-i) (b) ∈ faceBack m i := by
  by_cases hcen : (m - 2*(i+1)) % 2 = 1 ∧ a = m/2 ∧ b = m/2
  · obtain ⟨h1, rfl, rfl⟩ := hcen
    exact faceBack_mem_cen m i h1
  · obtain ⟨q, hq⟩ : ∃ q, q = min (min (a - (i+1)) (b - (i+1))) (min ((m-2-i) - a) ((m-2-i) - b)) :=
      ⟨_, rfl⟩
    have hq1 : q + i + 1 ≤ a ∧ a + q + i + 2 ≤ m ∧ q + i + 1 ≤ b ∧ b + q + i + 2 ≤ m := by
      omega
    have hq2 : a = q + i + 1 ∨ a + q + i + 2 = m ∨ b = q + i + 1 ∨ b + q + i + 2 = m := by
      omega
    have hql : q < (m - 2*(i+1)) / 2 := by omega
    clear hq hcen
    obtain ⟨hqa, hqb, hqc, hqd⟩ := hq1
    have hcls : (a = q+i+1 ∧ b = q+i+1)
        ∨ (a = q+i+1 ∧ b = i+1+(m-2*(i+1)-1)-q)
        ∨ (a = i+1+(m-2*(i+1)-1)-q ∧ b = i+1+(m-2*(i+1)-1)-q)
        ∨ (a = i+1+(m-2*(i+1)-1)-q ∧ b = q+i+1)
        ∨ (a = q+i+1 ∧ (q+i+1 < b ∧ b < i+1+(m-2*(i+1)-1)-q))
        ∨ (a = i+1+(m-2*(i+1)-1)-q ∧ (q+i+1 < b ∧ b < i+1+(m-2*(i+1)-1)-q))
        ∨ (b = q+i+1 ∧ (q+i+1 < a ∧ a < i+1+(m-2*(i+1)-1)-q))
        ∨ (b = i+1+(m-2*(i+1)-1)-q ∧ (q+i+1 < a ∧ a < i+1+(m-2*(i+1)-1)-q)) := by
      rcases hq2 with h | h | h | h <;> omega
    rcases hcls with ⟨rfl, rfl⟩ | ⟨rfl, rfl⟩ | ⟨rfl, rfl⟩ | ⟨rfl, rfl⟩ | ⟨rfl, hm1, hm2⟩ | ⟨rfl, hm1, hm2⟩ | ⟨rfl, hm1, hm2⟩ | ⟨rfl, hm1, hm2⟩
    · exact faceBack_mem_c1 m i q hql
    · exact faceBack_mem_c2 m i q hql
    · exact faceBack_mem_c3 m i q hql
    · exact faceBack_mem_c0 m i q hql
    · have hrw : b = q+i+1+1+(b - (q+i+1+1)) := by omega
      rw [hrw]
      exact faceBack_mem_r1 m i q (b - (q+i+1+1)) hql (by omega)
    · have hrw : b = i+1+(m-2*(i+1)-1)-q-1-(i+1+(m-2*(i+1)-1)-q-1-b) := by omega
      rw [hrw]
      exact faceBack_mem_r3 m i q (i+1+(m-2*(i+1)-1)-q-1-b) hql (by omega)
    · have hrw : a = i+1+(m-2*(i+1)-1)-q-1-(i+1+(m-2*(i+1)-1)-q-1-a) := by omega
      rw [hrw]
      exact faceBack_mem_r0 m i q (i+1+(m-2*(i+1)-1)-q-1-a) hql (by omega)
    · have hrw : a = q+i+1+1+(a - (q+i+1+1)) := by omega
      rw [hrw]
      exact faceBack_mem_r2 m i q (a - (q+i+1+1)) hql (by omega)

lemma faceTop_cover (m i a b : ℕ) (ha1 : i + 1 ≤ a) (ha2 : a + i + 2 ≤ m)
    (hb1 : i + 1 ≤ b) (hb2 : b + i + 2 ≤ m) :
    encH m (a) (b) (m-1-i) ∈ faceTop m i := by
  by_cases hcen : (m - 2*(i+1)) % 2 = 1 ∧ a = m/2 ∧ b = m/2
  · obtain ⟨h1, rfl, rfl⟩ := hcen
    exact faceTop_mem_cen m i h1
  · obtain ⟨q, hq⟩ : ∃ q, q = min (min (a - (i+1)) (b - (i+1))) (min ((m-2-i) - a) ((m-2-i) - b)) :=
      ⟨_, rfl⟩
    have hq1 : q + i + 1 ≤ a ∧ a + q + i + 2 ≤ m ∧ q + i + 1 ≤ b ∧ b + q + i + 2 ≤ m := by
      omega
    have hq2 : a = q + i + 1 ∨ a + q + i + 2 = m ∨ b = q + i + 1 ∨ b + q + i + 2 = m := by
      omega
    have hql : q < (m - 2*(i+1)) / 2 := by omega
    clear hq hcen
    obtain ⟨hqa, hqb, hqc, hqd⟩ := hq1
    have hcls : (a = q+i+1 ∧ b = q+i+1)
        ∨ (a = q+i+1 ∧ b = i+1+(m-2*(i+1)-1)-q)
        ∨ (a = i+1+(m-2*(i+1)-1)-q ∧ b = i+1+(m-2*(i+1)-1)-q)
        ∨ (a = i+1+(m-2*(i+1)-1)-q ∧ b = q+i+1)
        ∨ (a = q+i+1 ∧ (q+i+1 < b ∧ b < i+1+(m-2*(i+1)-1)-q))
        ∨ (a = i+1+(m-2*(i+1)-1)-q ∧ (q+i+1 < b ∧ b < i+1+(m-2*(i+1)-1)-q))
        ∨ (b = q+i+1 ∧ (q+i+1 < a ∧ a < i+1+(m-2*(i+1)-1)-q))
        ∨ (b = i+1+(m-2*(i+1)-1)-q ∧ (q+i+1 < a ∧ a < i+1+(m-2*(i+1)-1)-q)) := by
      rcases hq2 with h | h | h | h <;> omega
    rcases hcls with ⟨rfl, rfl⟩ | ⟨rfl, rfl⟩ | ⟨rfl, rfl⟩ | ⟨rfl, rfl⟩ | ⟨rfl, hm1, hm2⟩ | ⟨rfl, hm1, hm2⟩ | ⟨rfl, hm1, hm2⟩ | ⟨rfl, hm1, hm2⟩
    · exact faceTop_mem_c0 m i q hql
    · exact faceTop_mem_c3 m i q hql
    · exact faceTop_mem_c2 m i q hql
    · exact faceTop_mem_c1 m i q hql
    · have hrw : b = i+1+(m-2*(i+1)-1)-q-1-(i+1+(m-2*(i+1)-1)-q-1-b) := by omega
      rw [hrw]
      exact faceTop_mem_r3 m i q (i+1+(m-2*(i+1)-1)-q-1-b) hql (by omega)
    · have hrw : b = q+i+1+1+(b - (q+i+1+1)) := by omega
      rw [hrw]
      exact faceTop_mem_r1 m i q (b - (q+i+1+1)) hql (by omega)
    · have hrw : a = q+i+1+1+(a - (q+i+1+1)) := by omega
      rw [hrw]
      exact faceTop_mem_r0 m i q (a - (q+i+1+1)) hql (by omega)
    · have hrw : a = i+1+(m-2*(i+1)-1)-q-1-(i+1+(m-2*(i+1)-1)-q-1-a) := by omega
      rw [hrw]
      exact faceTop_mem_r2 m i q (i+1+(m-2*(i+1)-1)-q-1-a) hql (by omega)

lemma length_faceBottom (m i : ℕ) : (faceBottom m i).length = (m - 2*(i+1))^2 := by
  unfold faceBottom
  rw [List.length_append, List.flatMap_def, List.length_flatten, List.map_map]
  have h1 : List.map (List.length ∘ fun j0 =>
        [encH m (j0+i+1) (j0+i+1) i, encH m (j0+i+1) (i+1+(m-2*(i+1)-1)-j0) i, encH m (i+1+(m-2*(i+1)-1)-j0) (i+1+(m-2*(i+1)-1)-j0) i, encH m (i+1+(m-2*(i+1)-1)-j0) (j0+i+1) i]
          ++ (List.range (m - 2*(i+1) - 2*(j0+1))).map (fun k => encH m (j0+i+1) (j0+i+1+1+k) i)
          ++ (List.range (m - 2*(i+1) - 2*(j0+1))).map (fun k => encH m (j0+i+1+1+k) (i+1+(m-2*(i+1)-1)-j0) i)
          ++ (List.range (m - 2*(i+1) - 2*(j0+1))).map (fun k => encH m (i+1+(m-2*(i+1)-1)-j0) (i+1+(m-2*(i+1)-1)-j0-1-k) i)
          ++ (List.range (m - 2*(i+1) - 2*(j0+1))).map (fun k => encH m (i+1+(m-2*(i+1)-1)-j0-1-k) (j0+i+1) i))
      (List.range ((m - 2*(i+1)) / 2))
      = List.map (fun j0 => 4 + 4 * (m - 2*(i+1) - 2*(j0+1))) (List.range ((m - 2*(i+1)) / 2)) := by
    refine List.map_congr_left (fun j0 _ => ?_)
    simp only [Function.comp_apply, List.length_append, List.length_map, List.length_range,
      List.length_cons, List.length_nil]
    omega
  rw [h1]
  have h2 : (if (m - 2*(i+1)) % 2 = 1 then [encH m (m/2) (m/2) i] else []).length
      = (if (m - 2*(i+1)) % 2 = 1 then 1 else 0) := by
    split <;> rfl
  rw [h2]
  exact quadShell_len (m - 2*(i+1))

lemma length_faceFront (m i : ℕ) : (faceFront m i).length = (m - 2*(i+1))^2 := by
  unfold faceFront
  rw [List.length_append, List.flatMap_def, List.length_flatten, List.map_map]
  have h1 : List.map (List.length ∘ fun j0 =>
        [encH m (j0+i+1) i (j0+i+1), encH m (i+1+(m-2*(i+1)-1)-j0) i (j0+i+1), encH m (i+1+(m-2*(i+1)-1)-j0) i (i+1+(m-2*(i+1)-1)-j0), encH m (j0+i+1) i (i+1+(m-2*(i+1)-1)-j0)]
          ++ (List.range (m - 2*(i+1) - 2*(j0+1))).map (fun k => encH m (j0+i+1+1+k) i (j0+i+1))
          ++ (List.range (m - 2*(i+1) - 2*(j0+1))).map (fun k => encH m (i+1+(m-2*(i+1)-1)-j0) i (j0+i+1+1+k))
          ++ (List.range (m - 2*(i+1) - 2*(j0+1))).map (fun k => encH m (i+1+(m-2*(i+1)-1)-j0-1-k) i (i+1+(m-2*(i+1)-1)-j0))
          ++ (List.range (m - 2*(i+1) - 2*(j0+1))).map (fun k => encH m (j0+i+1) i (i+1+(m-2*(i+1)-1)-j0-1-k)))
      (List.range ((m - 2*(i+1)) / 2))
      = List.map (fun j0 => 4 + 4 * (m - 2*(i+1) - 2*(j0+1))) (List.range ((m - 2*(i+1)) / 2)) := by
    refine List.map_congr_left (fun j0 _ => ?_)
    simp only [Function.comp_apply, List.length_append, List.length_map, List.length_range,
      List.length_cons, List.length_nil]
    omega
  rw [h1]
  have h2 : (if (m - 2*(i+1)) % 2 = 1 then [encH m (m/2) i (m/2)] else []).length
      = (if (m - 2*(i+1)) % 2 = 1 then 1 else 0) := by
    split <;> rfl
  rw [h2]
  exact quadShell_len (m - 2*(i+1))

lemma length_faceLeft (m i : ℕ) : (faceLeft m i).length = (m - 2*(i+1))^2 := by
  unfold faceLeft
  rw [List.length_append, List.flatMap_def, List.length_flatten, List.map_map]
  have h1 : List.map (List.length ∘ fun j0 =>
        [encH m i (j0+i+1) (j0+i+1), encH m i (j0+i+1) (i+1+(m-2*(i+1)-1)-j0), encH m i (i+1+(m-2*(i+1)-1)-j0) (i+1+(m-2*(i+1)-1)-j0), encH m i (i+1+(m-2*(i+1)-1)-j0) (j0+i+1)]
          ++ (List.range (m - 2*(i+1) - 2*(j0+1))).map (fun k => encH m i (j0+i+1) (j0+i+1+1+k))
          ++ (List.range (m - 2*(i+1) - 2*(j0+1))).map (fun k => encH m i (j0+i+1+1+k) (i+1+(m-2*(i+1)-1)-j0))
          ++ (List.range (m - 2*(i+1) - 2*(j0+1))).map (fun k => encH m i (i+1+(m-2*(i+1)-1)-j0) (i+1+(m-2*(i+1)-1)-j0-1-k))
          ++ (List.range (m - 2*(i+1) - 2*(j0+1))).map (fun k => encH m i (i+1+(m-2*(i+1)-1)-j0-1-k) (j0+i+1)))
      (List.range ((m - 2*(i+1)) / 2))
      = List.map (fun j0 => 4 + 4 * (m - 2*(i+1) - 2*(j0+1))) (List.range ((m - 2*(i+1)) / 2)) := by
    refine List.map_congr_left (fun j0 _ => ?_)
    simp only [Function.comp_apply, List.length_append, List.length_map, List.length_range,
      List.length_cons, List.length_nil]
    omega
  rw [h1]
  have h2 : (if (m - 2*(i+1)) % 2 = 1 then [encH m i (m/2) (m/2)] else []).length
      = (if (m - 2*(i+1)) % 2 = 1 then 1 else 0) := by
    split <;> rfl
  rw [h2]
  exact quadShell_len (m - 2*(i+1))

lemma length_faceRight (m i : ℕ) : (faceRight m i).length = (m - 2*(i+1))^2 := by
  unfold faceRight
  rw [List.length_append, List.flatMap_def, List.length_flatten, List.map_map]
  have h1 : List.map (List.length ∘ fun j0 =>
        [encH m (m-1-i) (j0+i+1) (j0+i+1), encH m (m-1-i) (i+1+(m-2*(i+1)-1)-j0) (j0+i+1), encH m (m-1-i) (i+1+(m-2*(i+1)-1)-j0) (i+1+(m-2*(i+1)-1)-j0), encH m (m-1-i) (j0+i+1) (i+1+(m-2*(i+1)-1)-j0)]
          ++ (List.range (m - 2*(i+1) - 2*(j0+1))).map (fun k => encH m (m-1-i) (j0+i+1+1+k) (j0+i+1))
          ++ (List.range (m - 2*(i+1) - 2*(j0+1))).map (fun k => encH m (m-1-i) (i+1+(m-2*(i+1)-1)-j0) (j0+i+1+1+k))
          ++ (List.range (m - 2*(i+1) - 2*(j0+1))).map (fun k => encH m (m-1-i) (i+1+(m-2*(i+1)-1)-j0-1-k) (i+1+(m-2*(i+1)-1)-j0))
          ++ (List.range (m - 2*(i+1) - 2*(j0+1))).map (fun k => encH m (m-1-i) (j0+i+1) (i+1+(m-2*(i+1)-1)-j0-1-k)))
      (List.range ((m - 2*(i+1)) / 2))
      = List.map (fun j0 => 4 + 4 * (m - 2*(i+1) - 2*(j0+1))) (List.range ((m - 2*(i+1)) / 2)) := by
    refine List.map_congr_left (fun j0 _ => ?_)
    simp only [Function.comp_apply, List.length_append, List.length_map, List.length_range,
      List.length_cons, List.length_nil]
    omega
  rw [h1]
  have h2 : (if (m - 2*(i+1)) % 2 = 1 then [encH m (m-1-i) (m/2) (m/2)] else []).length
      = (if (m - 2*(i+1)) % 2 = 1 then 1 else 0) := by
    split <;> rfl
  rw [h2]
  exact quadShell_len (m - 2*(i+1))

lemma length_faceBack (m i : ℕ) : (faceBack m i).length = (m - 2*(i+1))^2 := by
  unfold faceBack
  rw [List.length_append, List.flatMap_def, List.length_flatten, List.map_map]
  have h1 : List.map (List.length ∘ fun j0 =>
        [encH m (i+1+(m-2*(i+1)-1)-j0) (m-1-i) (j0+i+1), encH m (j0+i+1) (m-1-i) (j0+i+1), encH m (j0+i+1) (m-1-i) (i+1+(m-2*(i+1)-1)-j0), encH m (i+1+(m-2*(i+1)-1)-j0) (m-1-i) (i+1+(m-2*(i+1)-1)-j0)]
          ++ (List.range (m - 2*(i+1) - 2*(j0+1))).map (fun k => encH m (i+1+(m-2*(i+1)-1)-j0-1-k) (m-1-i) (j0+i+1))
          ++ (List.range (m - 2*(i+1) - 2*(j0+1))).map (fun k => encH m (j0+i+1) (m-1-i) (j0+i+1+1+k))
          ++ (List.range (m - 2*(i+1) - 2*(j0+1))).map (fun k => encH m (j0+i+1+1+k) (m-1-i) (i+1+(m-2*(i+1)-1)-j0))
          ++ (List.range (m - 2*(i+1) - 2*(j0+1))).map (fun k => encH m (i+1+(m-2*(i+1)-1)-j0) (m-1-i) (i+1+(m-2*(i+1)-1)-j0-1-k)))
      (List.range ((m - 2*(i+1)) / 2))
      = List.map (fun j0 => 4 + 4 * (m - 2*(i+1) - 2*(j0+1))) (List.range ((m - 2*(i+1)) / 2)) := by
    refine List.map_congr_left (fun j0 _ => ?_)
    simp only [Function.comp_apply, List.length_append, List.length_map, List.length_range,
      List.length_cons, List.length_nil]
    omega
  rw [h1]
  have h2 : (if (m - 2*(i+1)) % 2 = 1 then [encH m (m/2) (m-1-i) (m/2)] else []).length
      = (if (m - 2*(i+1)) % 2 = 1 then 1 else 0) := by
    split <;> rfl
  rw [h2]
  exact quadShell_len (m - 2*(i+1))

lemma length_faceTop (m i : ℕ) : (faceTop m i).length = (m - 2*(i+1))^2 := by
  unfold faceTop
  rw [List.length_append, List.flatMap_def, List.length_flatten, List.map_map]
  have h1 : List.map (List.length ∘ fun j0 =>
        [encH m (j0+i+1) (j0+i+1) (m-1-i), encH m (i+1+(m-2*(i+1)-1)-j0) (j0+i+1) (m-1-i), encH m (i+1+(m-2*(i+1)-1)-j0) (i+1+(m-2*(i+1)-1)-j0) (m-1-i), encH m (j0+i+1) (i+1+(m-2*(i+1)-1)-j0) (m-1-i)]
          ++ (List.range (m - 2*(i+1) - 2*(j0+1))).map (fun k => encH m (j0+i+1+1+k) (j0+i+1) (m-1-i))
          ++ (List.range (m - 2*(i+1) - 2*(j0+1))).map (fun k => encH m (i+1+(m-2*(i+1)-1)-j0) (j0+i+1+1+k) (m-1-i))
          ++ (List.range (m - 2*(i+1) - 2*(j0+1))).map (fun k => encH m (i+1+(m-2*(i+1)-1)-j0-1-k) (i+1+(m-2*(i+1)-1)-j0) (m-1-i))
          ++ (List.range (m - 2*(i+1) - 2*(j0+1))).map (fun k => encH m (j0+i+1) (i+1+(m-2*(i+1)-1)-j0-1-k) (m-1-i)))
      (List.range ((m - 2*(i+1)) / 2))
      = List.map (fun j0 => 4 + 4 * (m - 2*(i+1) - 2*(j0+1))) (List.range ((m - 2*(i+1)) / 2)) := by
    refine List.map_congr_left (fun j0 _ => ?_)
    simp only [Function.comp_apply, List.length_append, List.length_map, List.length_range,
      List.length_cons, List.length_nil]
    omega
  rw [h1]
  have h2 : (if (m - 2*(i+1)) % 2 = 1 then [encH m (m/2) (m/2) (m-1-i)] else []).length
      = (if (m - 2*(i+1)) % 2 = 1 then 1 else 0) := by
    split <;> rfl
  rw [h2]
  exact quadShell_len (m - 2*(i+1))


lemma hexEdges_mem_r0 (m i j : ℕ) (hj : j < m - 2*(i+1)) :
    encH m (i+1+j) (i) (i) ∈ hexEdges m i := by
  unfold hexEdges
  apply List.mem_append_left
  apply List.mem_append_left
  apply List.mem_append_left
  apply List.mem_append_left
  apply List.mem_append_left
  apply List.mem_append_left
  apply List.mem_append_left
  apply List.mem_append_left
  apply List.mem_append_left
  apply List.mem_append_left
  apply List.mem_append_left
  exact mem_map_range _ hj

lemma hexEdges_mem_r1 (m i j : ℕ) (hj : j < m - 2*(i+1)) :
    encH m (i) (i+1+j) (i) ∈ hexEdges m i := by
  unfold hexEdges
  apply List.mem_append_left
  apply List.mem_append_left
  apply List.mem_append_left
  apply List.mem_append_left
  apply List.mem_append_left
  apply List.mem_append_left
  apply List.mem_append_left
  apply List.mem_append_left
  apply List.mem_append_left
  apply List.mem_append_left
  apply List.mem_append_right
  exact mem_map_range _ hj

lemma hexEdges_mem_r2 (m i j : ℕ) (hj : j < m - 2*(i+1)) :
    encH m (i) (i) (i+1+j) ∈ hexEdges m i := by
  unfold hexEdges
  apply List.mem_append_left
  apply List.mem_append_left
  apply List.mem_append_left
  apply List.mem_append_left
  apply List.mem_append_left
  apply List.mem_append_left
  apply List.mem_append_left
  apply List.mem_append_left
  apply List.mem_append_left
  apply List.mem_append_right
  exact mem_map_range _ hj

lemma hexEdges_mem_r3 (m i j : ℕ) (hj : j < m - 2*(i+1)) :
    encH m (m-1-i) (i+1+j) (i) ∈ hexEdges m i := by
  unfold hexEdges
  apply List.mem_append_left
  apply List.mem_append_left
  apply List.mem_append_left
  apply List.mem_append_left
  apply List.mem_append_left
  apply List.mem_append_left
  apply List.mem_append_left
  apply List.mem_append_left
  apply List.mem_append_right
  exact mem_map_range _ hj

lemma hexEdges_mem_r4 (m i j : ℕ) (hj : j < m - 2*(i+1)) :
    encH m (m-1-i) (i) (i+1+j) ∈ hexEdges m i := by
  unfold hexEdges
  apply List.mem_append_left
  apply List.mem_append_left
  apply List.mem_append_left
  apply List.mem_append_left
  apply List.mem_append_left
  apply List.mem_append_left
  apply List.mem_append_left
  apply List.mem_append_right
  exact mem_map_range _ hj

lemma hexEdges_mem_r5 (m i j : ℕ) (hj : j < m - 2*(i+1)) :
    encH m (m-1-i-1-j) (m-1-i) (i) ∈ hexEdges m i := by
  unfold hexEdges
  apply List.mem_append_left
  apply List.mem_append_left
  apply List.mem_append_left
  apply List.mem_append_left
  apply List.mem_append_left
  apply List.mem_append_left
  apply List.mem_append_right
  exact mem_map_range _ hj

lemma hexEdges_mem_r6 (m i j : ℕ) (hj : j < m - 2*(i+1)) :
    encH m (m-1-i) (m-1-i) (i+1+j) ∈ hexEdges m i := by
  unfold hexEdges
  apply List.mem_append_left
  apply List.mem_append_left
  apply List.mem_append_left
  apply List.mem_append_left
  apply List.mem_append_left
  apply List.mem_append_right
  exact mem_map_range _ hj

lemma hexEdges_mem_r7 (m i j : ℕ) (hj : j < m - 2*(i+1)) :
    encH m (i) (m-1-i) (i+1+j) ∈ hexEdges m i := by
  unfold hexEdges
  apply List.mem_append_left
  apply List.mem_append_left
  apply List.mem_append_left
  apply List.mem_append_left
  apply List.mem_append_right
  exact mem_map_range _ hj

lemma hexEdges_mem_r8 (m i j : ℕ) (hj : j < m - 2*(i+1)) :
    encH m (i+1+j) (i) (m-1-i) ∈ hexEdges m i := by
  unfold hexEdges
  apply List.mem_append_left
  apply List.mem_append_left
  apply List.mem_append_left
  apply List.mem_append_right
  exact mem_map_range _ hj

lemma hexEdges_mem_r9 (m i j : ℕ) (hj : j < m - 2*(i+1)) :
    encH m (i) (i+1+j) (m-1-i) ∈ hexEdges m i := by
  unfold hexEdges
  apply List.mem_append_left
  apply List.mem_append_left
  apply List.mem_append_right
  exact mem_map_range _ hj

lemma hexEdges_mem_r10 (m i j : ℕ) (hj : j < m - 2*(i+1)) :
    encH m (m-1-i) (i+1+j) (m-1-i) ∈ hexEdges m i := by
  unfold hexEdges
  apply List.mem_append_left
  apply List.mem_append_right
  exact mem_map_range _ hj

lemma hexEdges_mem_r11 (m i j : ℕ) (hj : j < m - 2*(i+1)) :
    encH m (m-1-i-1-j) (m-1-i) (m-1-i) ∈ hexEdges m i := by
  unfold hexEdges
  apply List.mem_append_right
  exact mem_map_range _ hj

lemma hexLevel_of_corners {x : ℕ} {m i : ℕ} (h : x ∈ hexCorners m i) :
    x ∈ hexLevel m i := by
  unfold hexLevel
  apply List.mem_append_left
  apply List.mem_append_left
  apply List.mem_append_left
  apply List.mem_append_left
  apply List.mem_append_left
  apply List.mem_append_left
  apply List.mem_append_left
  exact h

lemma hexLevel_of_edges {x : ℕ} {m i : ℕ} (h : x ∈ hexEdges m i) :
    x ∈ hexLevel m i := by
  unfold hexLevel
  apply List.mem_append_left
  apply List.mem_append_left
  apply List.mem_append_left
  apply List.mem_append_left
  apply List.mem_append_left
  apply List.mem_append_left
  apply List.mem_append_right
  exact h

lemma hexLevel_of_faceBottom {x : ℕ} {m i : ℕ} (h : x ∈ faceBottom m i) :
    x ∈ hexLevel m i := by
  unfold hexLevel
  apply List.mem_append_left
  apply List.mem_append_left
  apply List.mem_append_left
  apply List.mem_append_left
  apply List.mem_append_left
  apply List.mem_append_right
  exact h

lemma hexLevel_of_faceFront {x : ℕ} {m i : ℕ} (h : x ∈ faceFront m i) :
    x ∈ hexLevel m i := by
  unfold hexLevel
  apply List.mem_append_left
  apply List.mem_append_left
  apply List.mem_append_left
  apply List.mem_append_left
  apply List.mem_append_right
  exact h

lemma hexLevel_of_faceLeft {x : ℕ} {m i : ℕ} (h : x ∈ faceLeft m i) :
    x ∈ hexLevel m i := by
  unfold hexLevel
  apply List.mem_append_left
  apply List.mem_append_left
  apply List.mem_append_left
  apply List.mem_append_right
  exact h

lemma hexLevel_of_faceRight {x : ℕ} {m i : ℕ} (h : x ∈ faceRight m i) :
    x ∈ hexLevel m i := by
  unfold hexLevel
  apply List.mem_append_left
  apply List.mem_append_left
  apply List.mem_append_right
  exact h

lemma hexLevel_of_faceBack {x : ℕ} {m i : ℕ} (h : x ∈ faceBack m i) :
    x ∈ hexLevel m i := by
  unfold hexLevel
  apply List.mem_append_left
  apply List.mem_append_right
  exact h

lemma hexLevel_of_faceTop {x : ℕ} {m i : ℕ} (h : x ∈ faceTop m i) :
    x ∈ hexLevel m i := by
  unfold hexLevel
  apply List.mem_append_right
  exact h

lemma ghexSide_cover (m x y z : ℕ) (hx : x < m) (hy : y < m) (hz : z < m) :
    encH m x y z ∈ ghexSide m := by
  by_cases hcen : m % 2 = 1 ∧ x = m/2 ∧ y = m/2 ∧ z = m/2
  · obtain ⟨h1, rfl, rfl, rfl⟩ := hcen
    unfold ghexSide
    apply List.mem_append_right
    rw [if_pos h1]
    exact List.mem_singleton.2 rfl
  · obtain ⟨d, hd⟩ : ∃ d, d = min (min x (m-1-x)) (min (min y (m-1-y)) (min z (m-1-z))) :=
      ⟨_, rfl⟩
    have hb1 : d ≤ x ∧ x + d + 1 ≤ m ∧ d ≤ y ∧ y + d + 1 ≤ m ∧ d ≤ z ∧ z + d + 1 ≤ m := by
      omega
    have hb2 : d = x ∨ x + d + 1 = m ∨ d = y ∨ y + d + 1 = m ∨ d = z ∨ z + d + 1 = m := by
      omega
    have hdlt : d < m/2 := by omega
    clear hd hcen
    obtain ⟨hba, hbb, hbc, hbd, hbe, hbf⟩ := hb1
    have hmem : encH m x y z ∈ hexLevel m d := by
      have hx3 : d = x ∨ m-1-d = x ∨ (d < x ∧ x + d + 2 ≤ m) := by omega
      have hy3 : d = y ∨ m-1-d = y ∨ (d < y ∧ y + d + 2 ≤ m) := by omega
      have hz3 : d = z ∨ m-1-d = z ∨ (d < z ∧ z + d + 2 ≤ m) := by omega
      rcases hx3 with rfl | rfl | ⟨hx1, hx2⟩ <;>
        rcases hy3 with rfl | rfl | ⟨hy1, hy2⟩ <;>
        rcases hz3 with rfl | rfl | ⟨hz1, hz2⟩
      · exact hexLevel_of_corners (by simp [hexCorners])
      · exact hexLevel_of_corners (by simp [hexCorners])
      · have hrw : z = d+1+(z-(d+1)) := by omega
        rw [hrw]
        exact hexLevel_of_edges (hexEdges_mem_r2 m d (z-(d+1)) (by omega))
      · exact hexLevel_of_corners (by simp [hexCorners])
      · exact hexLevel_of_corners (by simp [hexCorners])
      · have hrw : z = d+1+(z-(d+1)) := by omega
        rw [hrw]
        exact hexLevel_of_edges (hexEdges_mem_r7 m d (z-(d+1)) (by omega))
      · have hrw : y = d+1+(y-(d+1)) := by omega
        rw [hrw]
        exact hexLevel_of_edges (hexEdges_mem_r1 m d (y-(d+1)) (by omega))
      · have hrw : y = d+1+(y-(d+1)) := by omega
        rw [hrw]
        exact hexLevel_of_edges (hexEdges_mem_r9 m d (y-(d+1)) (by omega))
      · exact hexLevel_of_faceLeft (faceLeft_cover m d y z (by omega) (by omega) (by omega) (by omega))
      · exact hexLevel_of_corners (by simp [hexCorners])
      · exact hexLevel_of_corners (by simp [hexCorners])
      · have hrw : z = d+1+(z-(d+1)) := by omega
        rw [hrw]
        exact hexLevel_of_edges (hexEdges_mem_r4 m d (z-(d+1)) (by omega))
      · exact hexLevel_of_corners (by simp [hexCorners])
      · exact hexLevel_of_corners (by simp [hexCorners])
      · have hrw : z = d+1+(z-(d+1)) := by omega
        rw [hrw]
        exact hexLevel_of_edges (hexEdges_mem_r6 m d (z-(d+1)) (by omega))
      · have hrw : y = d+1+(y-(d+1)) := by omega
        rw [hrw]
        exact hexLevel_of_edges (hexEdges_mem_r3 m d (y-(d+1)) (by omega))
      · have hrw : y = d+1+(y-(d+1)) := by omega
        rw [hrw]
        exact hexLevel_of_edges (hexEdges_mem_r10 m d (y-(d+1)) (by omega))
      · exact hexLevel_of_faceRight (faceRight_cover m d y z (by omega) (by omega) (by omega) (by omega))
      · have hrw : x = d+1+(x-(d+1)) := by omega
        rw [hrw]
        exact hexLevel_of_edges (hexEdges_mem_r0 m d (x-(d+1)) (by omega))
      · have hrw : x = d+1+(x-(d+1)) := by omega
        rw [hrw]
        exact hexLevel_of_edges (hexEdges_mem_r8 m d (x-(d+1)) (by omega))
      · exact hexLevel_of_faceFront (faceFront_cover m d x z (by omega) (by omega) (by omega) (by omega))
      · have hrw : x = m-1-d-1-(m-1-d-1-x) := by omega
        rw [hrw]
        exact hexLevel_of_edges (hexEdges_mem_r5 m d (m-1-d-1-x) (by omega))
      · have hrw : x = m-1-d-1-(m-1-d-1-x) := by omega
        rw [hrw]
        exact hexLevel_of_edges (hexEdges_mem_r11 m d (m-1-d-1-x) (by omega))
      · exact hexLevel_of_faceBack (faceBack_cover m d x z (by omega) (by omega) (by omega) (by omega))
      · exact hexLevel_of_faceBottom (faceBottom_cover m d x y (by omega) (by omega) (by omega) (by omega))
      · exact hexLevel_of_faceTop (faceTop_cover m d x y (by omega) (by omega) (by omega) (by omega))
      · exfalso
        rcases hb2 with h | h | h | h | h | h <;> omega
    unfold ghexSide
    exact List.mem_append_left _ (mem_flatMap_range hdlt hmem)

lemma length_hexCorners (m i : ℕ) : (hexCorners m i).length = 8 := rfl

lemma length_hexEdges (m i : ℕ) : (hexEdges m i).length = 12 * (m - 2*(i+1)) := by
  unfold hexEdges
  simp only [List.length_append, List.length_map, List.length_range]
  omega

lemma length_hexLevel (m i : ℕ) :
    (hexLevel m i).length = 8 + 12*(m - 2*(i+1)) + 6*(m - 2*(i+1))^2 := by
  unfold hexLevel
  rw [List.length_append, List.length_append, List.length_append, List.length_append,
    List.length_append, List.length_append, List.length_append,
    length_hexCorners, length_hexEdges, length_faceBottom, length_faceFront,
    length_faceLeft, length_faceRight, length_faceBack, length_faceTop]
  ring

lemma length_ghexSide (m : ℕ) : (ghexSide m).length = m^3 := by
  unfold ghexSide
  rw [List.length_append, List.flatMap_def, List.length_flatten, List.map_map]
  have h1 : List.map (List.length ∘ hexLevel m) (List.range (m/2))
      = List.map (fun i => 8 + 12*(m - 2*(i+1)) + 6*(m - 2*(i+1))^2) (List.range (m/2)) :=
    List.map_congr_left (fun i _ => by
      simp only [Function.comp_apply]; rw [length_hexLevel])
  rw [h1]
  have h2 : (if m % 2 = 1 then [encH m (m/2) (m/2) (m/2)] else []).length
      = (if m % 2 = 1 then 1 else 0) := by
    split <;> rfl
  rw [h2, hexShell_len]

/-! ### The gmsh→structured hex map is a permutation -/

lemma encH_decode (m t : ℕ) :
    encH m (t % m) (t / m % m) (t / m / m) = t := by
  unfold encH
  rw [Nat.mod_add_div (t/m) m, Nat.mod_add_div t m]

lemma ghexSide_perm (m : ℕ) : (ghexSide m).Perm (List.range (m^3)) := by
  have hsub : List.range (m^3) ⊆ ghexSide m := by
    intro t ht
    rw [List.mem_range] at ht
    rcases Nat.eq_zero_or_pos m with rfl | hm0
    · norm_num at ht
    · have hz : t / m / m < m := by
        rw [Nat.div_div_eq_div_mul, Nat.div_lt_iff_lt_mul (by positivity)]
        calc t < m^3 := ht
        _ = m * (m * m) := by ring
      have hmem := ghexSide_cover m (t % m) (t / m % m) (t / m / m)
        (Nat.mod_lt _ hm0) (Nat.mod_lt _ hm0) hz
      rwa [encH_decode] at hmem
  have hsp : List.Subperm (List.range (m^3)) (ghexSide m) :=
    (List.nodup_range _).subperm hsub
  refine (hsp.perm_of_length_le (le_of_eq ?_)).symm
  rw [length_ghexSide, List.length_range]

lemma ghexSide_nodup (m : ℕ) : (ghexSide m).Nodup :=
  ((ghexSide_perm m).nodup_iff).2 (List.nodup_range _)

lemma natCbrt_cube (m : ℕ) : natCbrt (m^3) = m := by
  unfold natCbrt
  have h1 : m ≤ Nat.findGreatest (fun s => s^3 ≤ m^3) (m^3) :=
    Nat.le_findGreatest (Nat.le_self_pow (by norm_num) m) (le_refl _)
  have h2 : Nat.findGreatest (fun s => s^3 ≤ m^3) (m^3) ≤ m := by
    by_contra hc
    push_neg at hc
    have hp := @Nat.findGreatest_spec 0 (fun s => s^3 ≤ m^3) _ (m^3)
      (Nat.zero_le (m^3)) (by norm_num)
    have hlt : m^3 < (Nat.findGreatest (fun s => s^3 ≤ m^3) (m^3))^3 :=
      Nat.pow_lt_pow_left hc (by norm_num)
    exact absurd hp (not_le.2 hlt)
  exact le_antisymm h2 h1

lemma gmsh_to_structured_hex_cube (m : ℕ) :
    gmsh_to_structured_hex (m^3) = .ok (ghexSide m) := by
  unfold gmsh_to_structured_hex
  rw [natCbrt_cube, if_pos (by ring)]

lemma reverse_map_getD (l : List ℕ) (t : ℕ) (ht : t < l.length) :
    (reverse_map l).getD t 0 = l.indexOf t := by
  unfold reverse_map
  rw [List.getD_eq_getElem _ _ (by simpa using ht)]
  simp

lemma ghex_left_inv (m t : ℕ) (ht : t < m^3) :
    (ghexSide m).getD ((reverse_map (ghexSide m)).getD t 0) 0 = t := by
  have hlen := length_ghexSide m
  have hmem : t ∈ ghexSide m := (ghexSide_perm m).mem_iff.2 (List.mem_range.2 ht)
  have hidx : (ghexSide m).indexOf t < (ghexSide m).length :=
    List.indexOf_lt_length.2 hmem
  rw [reverse_map_getD _ _ (by rw [hlen]; exact ht)]
  rw [List.getD_eq_getElem _ _ hidx]
  exact List.getElem_indexOf hidx

lemma ghex_right_inv (m t : ℕ) (ht : t < m^3) :
    (reverse_map (ghexSide m)).getD ((ghexSide m).getD t 0) 0 = t := by
  have hlen := length_ghexSide m
  have ht' : t < (ghexSide m).length := by rw [hlen]; exact ht
  rw [List.getD_eq_getElem _ _ ht']
  have hval : (ghexSide m)[t] < m^3 :=
    List.mem_range.1 ((ghexSide_perm m).subset (List.getElem_mem ht'))
  rw [reverse_map_getD _ _ (by rw [hlen]; exact hval)]
  exact List.indexOf_getElem (ghexSide_nodup m) t ht'

lemma reverse_map_ghex_perm (m : ℕ) :
    (reverse_map (ghexSide m)).Perm (List.range (m^3)) := by
  have hlen : (reverse_map (ghexSide m)).length = m^3 := by
    unfold reverse_map
    rw [List.length_map, List.length_range, length_ghexSide]
  have hsub : List.range (m^3) ⊆ reverse_map (ghexSide m) := by
    intro p hp
    rw [List.mem_range] at hp
    have hp' : p < (ghexSide m).length := by rw [length_ghexSide]; exact hp
    unfold reverse_map
    refine List.mem_map.2 ⟨(ghexSide m)[p], List.mem_range.2 ?_, ?_⟩
    · exact List.mem_range.1 ((ghexSide_perm m).subset (List.getElem_mem hp')) |>.trans_eq
        (length_ghexSide m).symm
    · exact List.indexOf_getElem (ghexSide_nodup m) p hp'
  refine (((List.nodup_range _).subperm hsub).perm_of_length_le (le_of_eq ?_)).symm
  rw [hlen, List.length_range]

/-- C1: for every perfect cube `n = m^3` with `m ≥ 2`, `gmsh_to_structured_hex n`
is a permutation of `{0,…,n−1}`, `structured_to_gmsh_hex n` is the
`reverse_map` of it and is itself a permutation, and composing the two maps
in either order is the identity on `{0,…,n−1}`. -/
theorem gmsh_hex_maps_are_inverse_permutations (m : ℕ) (hm : 2 ≤ m) :
    gmsh_to_structured_hex (m^3) = .ok (ghexSide m) ∧
    structured_to_gmsh_hex (m^3) = .ok (reverse_map (ghexSide m)) ∧
    (ghexSide m).Perm (List.range (m^3)) ∧
    (reverse_map (ghexSide m)).Perm (List.range (m^3)) ∧
    (∀ t, t < m^3 → (ghexSide m).getD ((reverse_map (ghexSide m)).getD t 0) 0 = t) ∧
    (∀ t, t < m^3 → (reverse_map (ghexSide m)).getD ((ghexSide m).getD t 0) 0 = t) := by
  refine ⟨gmsh_to_structured_hex_cube m, ?_, ghexSide_perm m, reverse_map_ghex_perm m,
    fun t ht => ghex_left_inv m t ht, fun t ht => ghex_right_inv m t ht⟩
  unfold structured_to_gmsh_hex
  rw [gmsh_to_structured_hex_cube]
  rfl

/-- Witness for C1 at `m = 2` (the 8-node linear hex). -/
theorem gmsh_hex_maps_are_inverse_permutations_witness :
    2 ≤ 2 ∧
    (gmsh_to_structured_hex (2^3) = .ok (ghexSide 2) ∧
     structured_to_gmsh_hex (2^3) = .ok (reverse_map (ghexSide 2)) ∧
     (ghexSide 2).Perm (List.range (2^3)) ∧
     (reverse_map (ghexSide 2)).Perm (List.range (2^3)) ∧
     (∀ t, t < 2^3 → (ghexSide 2).getD ((reverse_map (ghexSide 2)).getD t 0) 0 = t) ∧
     (∀ t, t < 2^3 → (reverse_map (ghexSide 2)).getD ((ghexSide 2).getD t 0) 0 = t)) :=
  ⟨by norm_num, gmsh_hex_maps_are_inverse_permutations 2 (by norm_num)⟩

/-! ### C2: shape_hex is the Kronecker delta at the tensor-grid nodes -/

lemma length_xlistQ (m : ℕ) : (xlistQ m).length = m := by
  unfold xlistQ
  rw [List.length_map, List.length_range]

lemma xlistQ_getD (m i : ℕ) (hi : i < m) :
    (xlistQ m).getD i 0 = -1 + (i : ℚ) * (2 / ((m : ℚ) - 1)) := by
  have h : i < (xlistQ m).length := by rw [length_xlistQ]; exact hi
  rw [List.getD_eq_getElem _ _ h]
  simp only [xlistQ, List.getElem_map, List.getElem_range]

lemma xlistQ_inj (m i j : ℕ) (hm : 2 ≤ m) (hi : i < m) (hj : j < m) (hij : i ≠ j) :
    (xlistQ m).getD i 0 ≠ (xlistQ m).getD j 0 := by
  rw [xlistQ_getD m i hi, xlistQ_getD m j hj]
  intro he
  have hm2 : (2 : ℚ) ≤ (m : ℚ) := by exact_mod_cast hm
  have hd : (2 : ℚ) / ((m : ℚ) - 1) ≠ 0 := by
    apply div_ne_zero (by norm_num)
    intro h0
    have : (m : ℚ) = 1 := by linarith
    linarith
  have he2 : (i : ℚ) * (2 / ((m : ℚ) - 1)) = (j : ℚ) * (2 / ((m : ℚ) - 1)) := by
    linarith
  have : (i : ℚ) = (j : ℚ) := mul_right_cancel₀ hd he2
  exact hij (by exact_mod_cast this)

lemma foldl_ite_mul (f : ℕ → ℚ) (mode : ℕ) :
    ∀ (l : List ℕ) (init : ℚ),
      l.foldl (fun lag i => if i ≠ mode then lag * f i else lag) init
        = init * (l.map (fun i => if i ≠ mode then f i else 1)).prod := by
  intro l
  induction l with
  | nil => intro init; simp
  | cons i l ih =>
    intro init
    simp only [List.foldl_cons, List.map_cons, List.prod_cons]
    by_cases h : i ≠ mode
    · rw [if_pos h, if_pos h, ih, mul_assoc]
    · rw [if_neg h, if_neg h, ih, one_mul]

lemma Lagrange_delta (m a b : ℕ) (hm : 2 ≤ m) (ha : a < m) (hb : b < m) :
    Lagrange (xlistQ m) (-1 + (a : ℚ) * (2 / ((m : ℚ) - 1))) b
      = if a = b then 1 else 0 := by
  unfold Lagrange
  rw [length_xlistQ, foldl_ite_mul, one_mul]
  by_cases hab : a = b
  · subst hab
    rw [if_pos rfl]
    apply List.prod_eq_one
    intro x hx
    obtain ⟨i, hi, rfl⟩ := List.mem_map.1 hx
    rw [List.mem_range] at hi
    by_cases hia : i ≠ a
    · rw [if_pos hia, ← xlistQ_getD m a ha]
      exact div_self (sub_ne_zero.2 (xlistQ_inj m a i hm ha hi (Ne.symm hia)))
    · rw [if_neg hia]
  · rw [if_neg hab]
    apply List.prod_eq_zero
    refine List.mem_map.2 ⟨a, List.mem_range.2 ha, ?_⟩
    rw [if_pos hab, ← xlistQ_getD m a ha, sub_self, zero_div]

lemma length_foldl_set (σ : ℕ → ℕ) (v : ℕ → ℚ) :
    ∀ (l : List ℕ) (out : List ℚ),
      (l.foldl (fun out pt => out.set (σ pt) (v pt)) out).length = out.length := by
  intro l
  induction l with
  | nil => intro out; rfl
  | cons p l ih =>
    intro out
    rw [List.foldl_cons, ih, List.length_set]

lemma foldl_set_getD (σ : ℕ → ℕ) (v : ℕ → ℚ) :
    ∀ (l : List ℕ) (out : List ℚ) (p : ℕ), p ∈ l → σ p < out.length →
      (∀ q ∈ l, σ q = σ p → q = p) →
      (l.foldl (fun out pt => out.set (σ pt) (v pt)) out).getD (σ p) 0 = v p := by
  intro l
  induction l using List.reverseRecOn with
  | nil =>
    intro out p hp _ _
    exact absurd hp (List.not_mem_nil p)
  | append_singleton l a ih =>
    intro out p hp hlt hinj
    rw [List.foldl_append, List.foldl_cons, List.foldl_nil]
    by_cases hpa : p = a
    · subst hpa
      rw [List.getD_eq_getElem _ _
        (by rw [List.length_set, length_foldl_set]; exact hlt)]
      simp
    · have hpm : p ∈ l := by
        rcases List.mem_append.1 hp with h | h
        · exact h
        · exact absurd (List.mem_singleton.1 h) hpa
      have hσ : σ a ≠ σ p := fun he => hpa (hinj a (by simp) he).symm
      have hres := ih out p hpm hlt
        (fun q hq he => hinj q (List.mem_append_left _ hq) he)
      have hb2 : σ p < ((l.foldl (fun out pt => out.set (σ pt) (v pt)) out)).length := by
        rw [length_foldl_set]; exact hlt
      rw [List.getD_eq_getElem _ _ (by rw [List.length_set]; exact hb2),
        List.getElem_set_ne hσ, ← List.getD_eq_getElem _ _ hb2]
      exact hres

lemma shape_hex_scatter_getD (m : ℕ) (v : ℕ → ℚ) (p : ℕ) (hp : p < m^3) :
    ((List.range (m^3)).foldl
        (fun out pt => out.set ((reverse_map (ghexSide m)).getD pt 0) (v pt))
        (List.replicate (m^3) 0)).getD ((reverse_map (ghexSide m)).getD p 0) 0
      = v p := by
  apply foldl_set_getD
  · exact List.mem_range.2 hp
  · rw [List.length_replicate,
      reverse_map_getD _ _ (by rw [length_ghexSide]; exact hp)]
    have hmem : p ∈ ghexSide m := (ghexSide_perm m).mem_iff.2 (List.mem_range.2 hp)
    have := List.indexOf_lt_length.2 hmem
    rw [length_ghexSide] at this
    exact this
  · intro q hq he
    rw [List.mem_range] at hq
    rw [reverse_map_getD _ _ (by rw [length_ghexSide]; exact hq),
        reverse_map_getD _ _ (by rw [length_ghexSide]; exact hp)] at he
    have hqm : q ∈ ghexSide m := (ghexSide_perm m).mem_iff.2 (List.mem_range.2 hq)
    have hpm : p ∈ ghexSide m := (ghexSide_perm m).mem_iff.2 (List.mem_range.2 hp)
    exact (List.indexOf_inj hqm hpm).1 he

lemma encH_lt (m a b c : ℕ) (ha : a < m) (hb : b < m) (hc : c < m) :
    encH m a b c < m^3 := by
  unfold encH
  zify
  have ham : (a : ℤ) < m := by exact_mod_cast ha
  have hbm : (b : ℤ) < m := by exact_mod_cast hb
  have hcm : (c : ℤ) < m := by exact_mod_cast hc
  have hm0 : (0 : ℤ) ≤ m := by positivity
  nlinarith [mul_nonneg hm0 (by linarith : (0 : ℤ) ≤ (m : ℤ) - 1 - b),
    mul_nonneg (mul_nonneg hm0 hm0) (by linarith : (0 : ℤ) ≤ (m : ℤ) - 1 - c)]

lemma encH_mod (m a b c : ℕ) (ha : a < m) : encH m a b c % m = a := by
  unfold encH
  rw [Nat.add_mul_mod_self_left, Nat.mod_eq_of_lt ha]

lemma encH_div (m a b c : ℕ) (ha : a < m) : encH m a b c / m = b + m * c := by
  unfold encH
  rw [Nat.add_mul_div_left _ _ (by omega : 0 < m), Nat.div_eq_of_lt ha, zero_add]

lemma cube_ne_twenty (m : ℕ) (hm : 2 ≤ m) : m^3 ≠ 20 := by
  intro he
  rcases Nat.lt_or_ge m 3 with h | h
  · interval_cases m
    exact absurd he (by norm_num)
  · have h27 : 3^3 ≤ m^3 := Nat.pow_le_pow_left h 3
    rw [he] at h27
    exact absurd h27 (by norm_num)

lemma div_div_lt_of_lt_cube (m p : ℕ) (hp : p < m^3) : p / m / m < m := by
  rcases Nat.eq_zero_or_pos m with rfl | hm0
  · norm_num at hp
  · rw [Nat.div_div_eq_div_mul, Nat.div_lt_iff_lt_mul (by positivity)]
    calc p < m^3 := hp
    _ = m * (m * m) := by ring

/-- C2: for every Lagrange hex node count `n = m³` (`m ≥ 2`) and every
structured tensor-grid node `(x_a, x_b, x_c)` with `x_t = -1 + t*(2/(m-1))`,
`shape_hex` at that node writes the value 1 into the external slot
`ijk2gmsh[a + m*(b + m*c)]` and 0 into every other slot.  Over the exact
rationals the Kronecker delta holds exactly, which is in particular within
the `10⁻¹²` tolerance of the claim. -/
theorem shape_hex_kronecker (m a b c : ℕ) (hm : 2 ≤ m)
    (ha : a < m) (hb : b < m) (hc : c < m) :
    shape_hex (-1 + (a : ℚ) * (2 / ((m : ℚ) - 1)),
               -1 + (b : ℚ) * (2 / ((m : ℚ) - 1)),
               -1 + (c : ℚ) * (2 / ((m : ℚ) - 1))) (m^3)
      = .ok ((List.range (m^3)).map (fun s =>
          if s = (reverse_map (ghexSide m)).getD (encH m a b c) 0 then 1 else 0)) := by
  have hs : structured_to_gmsh_hex (m^3) = .ok (reverse_map (ghexSide m)) := by
    unfold structured_to_gmsh_hex
    rw [gmsh_to_structured_hex_cube]
    rfl
  unfold shape_hex
  rw [if_neg (cube_ne_twenty m hm)]
  simp only [natCbrt_cube, hs]
  rw [if_pos (by ring)]
  refine congrArg Except.ok ?_
  apply List.ext_getElem
  · rw [length_foldl_set, List.length_replicate, List.length_map, List.length_range]
  · intro s h1 h2
    have hslen : s < m^3 := by
      rw [length_foldl_set, List.length_replicate] at h1
      exact h1
    rw [List.getElem_map, List.getElem_range]
    rw [← List.getD_eq_getElem _ 0 h1]
    by_cases hcase : s = (reverse_map (ghexSide m)).getD (encH m a b c) 0
    · rw [if_pos hcase, hcase,
        shape_hex_scatter_getD m _ (encH m a b c) (encH_lt m a b c ha hb hc)]
      rw [encH_mod m a b c ha, encH_div m a b c ha,
        Nat.add_mul_mod_self_left, Nat.mod_eq_of_lt hb,
        Nat.add_mul_div_left _ _ (by omega : 0 < m), Nat.div_eq_of_lt hb, zero_add]
      rw [Lagrange_delta m a a hm ha ha, Lagrange_delta m b b hm hb hb,
        Lagrange_delta m c c hm hc hc]
      norm_num
    · rw [if_neg hcase]
      have hps := ghex_right_inv m s hslen
      have hplt : (ghexSide m).getD s 0 < m^3 := by
        have hmem : (ghexSide m).getD s 0 ∈ ghexSide m := by
          rw [List.getD_eq_getElem _ _ (by rw [length_ghexSide]; exact hslen)]
          exact List.getElem_mem _
        exact List.mem_range.1 ((ghexSide_perm m).subset hmem)
      rw [← hps, shape_hex_scatter_getD m _ _ hplt]
      have hpne : (ghexSide m).getD s 0 ≠ encH m a b c := by
        intro he
        rw [he] at hps
        exact hcase hps.symm
      have hm0 : 0 < m := by omega
      rw [Lagrange_delta m a _ hm ha (Nat.mod_lt _ hm0),
        Lagrange_delta m b _ hm hb (Nat.mod_lt _ hm0),
        Lagrange_delta m c _ hm hc (div_div_lt_of_lt_cube m _ hplt)]
      by_cases h1a : a = (ghexSide m).getD s 0 % m
      · by_cases h1b : b = (ghexSide m).getD s 0 / m % m
        · by_cases h1c : c = (ghexSide m).getD s 0 / m / m
          · exfalso
            apply hpne
            rw [← encH_decode m ((ghexSide m).getD s 0), ← h1a, ← h1b, ← h1c]
          · rw [if_neg h1c, mul_zero]
        · rw [if_neg h1b, mul_zero, zero_mul]
      · rw [if_neg h1a, zero_mul, zero_mul]

/-- Witness for C2 at `m = 2`, `a = b = c = 0`. -/
theorem shape_hex_kronecker_witness :
    (2 ≤ 2 ∧ 0 < 2) ∧
    shape_hex (-1 + (0 : ℚ) * (2 / ((2 : ℚ) - 1)),
               -1 + (0 : ℚ) * (2 / ((2 : ℚ) - 1)),
               -1 + (0 : ℚ) * (2 / ((2 : ℚ) - 1))) (2^3)
      = .ok ((List.range (2^3)).map (fun s =>
          if s = (reverse_map (ghexSide 2)).getD (encH 2 0 0 0) 0 then 1 else 0)) :=
  ⟨by norm_num,
   shape_hex_kronecker 2 0 0 0 (by norm_num) (by norm_num) (by norm_num) (by norm_num)⟩

/-! ### C3, C4, C9: behaviour of the Newton solver -/

lemma structured_to_gmsh_hex_cube (m : ℕ) :
    structured_to_gmsh_hex (m^3) = .ok (reverse_map (ghexSide m)) := by
  unfold structured_to_gmsh_hex
  rw [gmsh_to_structured_hex_cube]
  rfl

lemma shape_hex_cube_ok (rst : ℚ × ℚ × ℚ) (m : ℕ) (hm : 2 ≤ m) :
    ∃ l, shape_hex rst (m^3) = .ok l := by
  unfold shape_hex
  rw [if_neg (cube_ne_twenty m hm)]
  simp only [natCbrt_cube, structured_to_gmsh_hex_cube]
  rw [if_pos (by ring)]
  exact ⟨_, rfl⟩

lemma dshape_hex_cube_ok (rst : ℚ × ℚ × ℚ) (m : ℕ) (hm : 2 ≤ m) :
    ∃ l, dshape_hex rst (m^3) = .ok l := by
  unfold dshape_hex
  rw [if_neg (cube_ne_twenty m hm)]
  simp only [natCbrt_cube, structured_to_gmsh_hex_cube]
  rw [if_pos (by ring)]
  exact ⟨_, rfl⟩

lemma newtonStep_ok (xv : List V3) (pos : V3) (m : ℕ) (hm : 2 ≤ m) (loc : V3) :
    ∃ r, newtonStep xv pos (m^3) loc = .ok r := by
  obtain ⟨sh, hsh⟩ := shape_hex_cube_ok loc m hm
  obtain ⟨dsh, hdsh⟩ := dshape_hex_cube_ok loc m hm
  unfold newtonStep
  rw [hsh, hdsh]
  exact ⟨_, rfl⟩

lemma newtonLoop_ok (xv : List V3) (pos : V3) (m : ℕ) (hm : 2 ≤ m) :
    ∀ (fuel iter : ℕ) (loc : V3) (nsq npsq tolSq : ℚ) (trace : List ℚ),
      ∃ loc2 it tr, newtonLoop xv pos (m^3) fuel iter loc nsq npsq tolSq trace
        = .ok (loc2, it, tr) ∧ it ≤ iter + fuel := by
  intro fuel
  induction fuel with
  | zero =>
    intro iter loc nsq npsq tolSq trace
    exact ⟨loc, iter, trace, rfl, by omega⟩
  | succ fuel ih =>
    intro iter loc nsq npsq tolSq trace
    by_cases hn : nsq > tolSq
    · obtain ⟨⟨newLoc, newNsq⟩, hstep⟩ := newtonStep_ok xv pos m hm loc
      by_cases hstall : 1 < iter ∧ newNsq > (99/100)^2 * npsq
      · refine ⟨newLoc, iter, trace ++ [newNsq], ?_, by omega⟩
        unfold newtonLoop
        rw [if_pos hn, hstep]
        dsimp only
        rw [if_pos hstall]
      · obtain ⟨loc2, it, tr, hrec, hle⟩ :=
          ih (iter+1) newLoc newNsq newNsq tolSq (trace ++ [newNsq])
        refine ⟨loc2, it, tr, ?_, by omega⟩
        unfold newtonLoop
        rw [if_pos hn, hstep]
        dsimp only
        rw [if_neg hstall, hrec]
    · refine ⟨loc, iter, trace, ?_, by omega⟩
      unfold newtonLoop
      rw [if_neg hn]

/-- C3 (amended): for supported node counts — a perfect cube `m³`, `m ≥ 2`,
the tensor-product Lagrange path — `getRefLocNewton` always returns without
an error, having performed at most 20 Newton iterations (`iterMax = 20`),
and always produces reference coordinates.  The second conjunct is the
stall early-exit: after iteration 1, as soon as the fresh residual norm
exceeds `0.99` of the previous one (squared comparison), the loop stops at
once with the just-updated iterate. -/
theorem getRefLocNewton_terminates (xv : List V3) (pos : V3) (m : ℕ) (hm : 2 ≤ m) :
    (∃ out : NewtonOut, getRefLocNewton xv pos (m^3) = .ok out ∧ out.iters ≤ 20) ∧
    (∀ (fuel iter : ℕ) (loc : V3) (nsq npsq tolSq : ℚ) (trace : List ℚ)
       (newLoc : V3) (newNsq : ℚ),
      newtonStep xv pos (m^3) loc = .ok (newLoc, newNsq) →
      nsq > tolSq → 1 < iter → newNsq > (99/100)^2 * npsq →
      newtonLoop xv pos (m^3) (fuel+1) iter loc nsq npsq tolSq trace
        = .ok (newLoc, iter, trace ++ [newNsq])) := by
  constructor
  · obtain ⟨loc2, it, tr, hloop, hle⟩ :=
      newtonLoop_ok xv pos m hm 20 0 (0, 0, 0) 1 4 (newtonTolSq xv (m^3)) []
    refine ⟨⟨loc2, decide (max |v3x loc2| (max |v3y loc2| |v3z loc2|) ≤ 1 + 1/10^10),
      it, tr⟩, ?_, ?_⟩
    · unfold getRefLocNewton
      rw [hloop]
    · show it ≤ 20
      omega
  · intro fuel iter loc nsq npsq tolSq trace newLoc newNsq hstep hgt hit hst
    unfold newtonLoop
    rw [if_pos hgt, hstep]
    dsimp only
    rw [if_pos ⟨hit, hst⟩]

/-- Witness for C3 on the 8-node unit-cube hex. -/
theorem getRefLocNewton_terminates_witness :
    2 ≤ 2 ∧ ∃ out : NewtonOut,
      getRefLocNewton unitHexXv (1/2, 1/2, 1/2) (2^3) = .ok out ∧ out.iters ≤ 20 :=
  ⟨by norm_num, (getRefLocNewton_terminates unitHexXv (1/2, 1/2, 1/2) 2 (by norm_num)).1⟩

set_option maxRecDepth 200000 in
/-- C3 counterexample: for `nNodes = 21` (neither 20 nor a perfect cube)
the solver propagates `ThrowException` from `shape_hex` instead of
returning — "never throws, always writes out_rst" fails on the code as
stated for every input. -/
theorem getRefLocNewton_throws_on_21 :
    getRefLocNewton (List.replicate 21 ((0:ℚ), (0:ℚ), (0:ℚ))) (1, 2, 3) 21
      = .error "For Lagrange hex of order N, must have (N+1)^3 shape points." := by
  rfl

lemma clampQ_mem (x : ℚ) : -(101/100) ≤ clampQ x ∧ clampQ x ≤ 101/100 := by
  unfold clampQ
  exact ⟨le_max_right _ _, max_le (min_le_right _ _) (by norm_num)⟩

lemma newtonStep_clamped (xv : List V3) (pos : V3) (n : ℕ) (loc newLoc : V3) (nsq : ℚ)
    (h : newtonStep xv pos n loc = .ok (newLoc, nsq)) :
    (-(101/100) ≤ v3x newLoc ∧ v3x newLoc ≤ 101/100) ∧
    (-(101/100) ≤ v3y newLoc ∧ v3y newLoc ≤ 101/100) ∧
    (-(101/100) ≤ v3z newLoc ∧ v3z newLoc ≤ 101/100) := by
  unfold newtonStep at h
  rcases hsh : shape_hex loc n with e | sh <;> rw [hsh] at h
  · simp at h
  · rcases hdsh : dshape_hex loc n with e | dsh <;> rw [hdsh] at h
    · simp at h
    · dsimp only at h
      rw [Except.ok.injEq, Prod.mk.injEq] at h
      obtain ⟨h1, -⟩ := h
      rw [← h1]
      exact ⟨clampQ_mem _, clampQ_mem _, clampQ_mem _⟩

lemma newtonLoop_clamped (xv : List V3) (pos : V3) (n : ℕ) :
    ∀ (fuel iter : ℕ) (loc : V3) (nsq npsq tolSq : ℚ) (trace : List ℚ)
      (loc2 : V3) (it : ℕ) (tr : List ℚ),
      ((-(101/100) ≤ v3x loc ∧ v3x loc ≤ 101/100) ∧
       (-(101/100) ≤ v3y loc ∧ v3y loc ≤ 101/100) ∧
       (-(101/100) ≤ v3z loc ∧ v3z loc ≤ 101/100)) →
      newtonLoop xv pos n fuel iter loc nsq npsq tolSq trace = .ok (loc2, it, tr) →
      ((-(101/100) ≤ v3x loc2 ∧ v3x loc2 ≤ 101/100) ∧
       (-(101/100) ≤ v3y loc2 ∧ v3y loc2 ≤ 101/100) ∧
       (-(101/100) ≤ v3z loc2 ∧ v3z loc2 ≤ 101/100)) := by
  intro fuel
  induction fuel with
  | zero =>
    intro iter loc nsq npsq tolSq trace loc2 it tr hin heq
    unfold newtonLoop at heq
    rw [Except.ok.injEq, Prod.mk.injEq] at heq
    obtain ⟨h3, -⟩ := heq
    rw [← h3]
    exact hin
  | succ fuel ih =>
    intro iter loc nsq npsq tolSq trace loc2 it tr hin heq
    unfold newtonLoop at heq
    by_cases hn : nsq > tolSq
    · rw [if_pos hn] at heq
      rcases hstep : newtonStep xv pos n loc with e | ⟨newLoc, newNsq⟩ <;>
        rw [hstep] at heq
      · simp at heq
      · dsimp only at heq
        have hclamp := newtonStep_clamped xv pos n loc newLoc newNsq hstep
        by_cases hstall : 1 < iter ∧ newNsq > (99/100)^2 * npsq
        · rw [if_pos hstall, Except.ok.injEq, Prod.mk.injEq] at heq
          obtain ⟨h3, -⟩ := heq
          rw [← h3]
          exact hclamp
        · rw [if_neg hstall] at heq
          exact ih (iter+1) newLoc newNsq newNsq tolSq (trace ++ [newNsq])
            loc2 it tr hclamp heq
    · rw [if_neg hn, Except.ok.injEq, Prod.mk.injEq] at heq
      obtain ⟨h3, -⟩ := heq
      rw [← h3]
      exact hin

/-- C9 (amended): for supported node counts (a perfect cube `m³`, `m ≥ 2`),
`getRefLocNewton` always returns reference coordinates each of whose
components lies within `[-1.01, 1.01]`: the iterate starts at the origin
and every Newton update is clamped into that interval, so the result stays
bounded even when the iteration stalls or fails to converge. -/
theorem getRefLocNewton_rst_clamped (xv : List V3) (pos : V3) (m : ℕ) (hm : 2 ≤ m) :
    ∃ out : NewtonOut, getRefLocNewton xv pos (m^3) = .ok out ∧
      (-(101/100) ≤ v3x out.rst ∧ v3x out.rst ≤ 101/100) ∧
      (-(101/100) ≤ v3y out.rst ∧ v3y out.rst ≤ 101/100) ∧
      (-(101/100) ≤ v3z out.rst ∧ v3z out.rst ≤ 101/100) := by
  obtain ⟨loc2, it, tr, hloop, -⟩ :=
    newtonLoop_ok xv pos m hm 20 0 (0, 0, 0) 1 4 (newtonTolSq xv (m^3)) []
  have hbounds := newtonLoop_clamped xv pos (m^3) 20 0 (0, 0, 0) 1 4
    (newtonTolSq xv (m^3)) [] loc2 it tr (by norm_num [v3x, v3y, v3z]) hloop
  refine ⟨⟨loc2, decide (max |v3x loc2| (max |v3y loc2| |v3z loc2|) ≤ 1 + 1/10^10),
    it, tr⟩, ?_, hbounds⟩
  unfold getRefLocNewton
  rw [hloop]

/-- Witness for C9 on the 8-node unit-cube hex with an exterior query. -/
theorem getRefLocNewton_rst_clamped_witness :
    2 ≤ 2 ∧ ∃ out : NewtonOut,
      getRefLocNewton unitHexXv (100, 1/2, 1/2) (2^3) = .ok out ∧
      (-(101/100) ≤ v3x out.rst ∧ v3x out.rst ≤ 101/100) ∧
      (-(101/100) ≤ v3y out.rst ∧ v3y out.rst ≤ 101/100) ∧
      (-(101/100) ≤ v3z out.rst ∧ v3z out.rst ≤ 101/100) :=
  ⟨by norm_num, getRefLocNewton_rst_clamped unitHexXv (100, 1/2, 1/2) 2 (by norm_num)⟩

set_option maxRecDepth 200000 in
/-- C9 counterexample: for `nNodes = 21` nothing is written at all — the
solver errors out of `shape_hex`, so "for every input the written out_rst
lies in [-1.01,1.01]" fails as stated. -/
theorem getRefLocNewton_no_rst_on_bad_count :
    (getRefLocNewton (List.replicate 21 ((0:ℚ), (0:ℚ), (0:ℚ))) (0, 0, 0) 21).isOk = false := by
  decide

/-- C4 (amended): whenever `getRefLocNewton` returns, the interior flag is
exactly the interior test `max(|loc₀|, max(|loc₁|, |loc₂|)) ≤ 1 + 1e-10`
applied to the LAST iterate — it is the position of the final iterate, not
convergence, that decides the flag. -/
theorem getRefLocNewton_flag_is_interior_test (xv : List V3) (pos : V3) (n : ℕ)
    (out : NewtonOut) (h : getRefLocNewton xv pos n = .ok out) :
    out.inside
      = decide (max |v3x out.rst| (max |v3y out.rst| |v3z out.rst|) ≤ 1 + 1/10^10) := by
  unfold getRefLocNewton at h
  rcases hloop : newtonLoop xv pos n 20 0 (0, 0, 0) 1 4 (newtonTolSq xv n) []
      with e | ⟨loc, iter, trace⟩ <;> rw [hloop] at h
  · simp at h
  · dsimp only at h
    rw [Except.ok.injEq] at h
    rw [← h]

set_option maxRecDepth 200000 in
/-- Witness for the amended C4 on the unit cube (the run converges at the
origin with flag true, matching the interior test). -/
theorem getRefLocNewton_flag_is_interior_test_witness :
    (⟨((0:ℚ), (0:ℚ), (0:ℚ)), true, 1, [(0:ℚ)]⟩ : NewtonOut).inside
      = decide (max |v3x (((0:ℚ), (0:ℚ), (0:ℚ)) : V3)|
          (max |v3y (((0:ℚ), (0:ℚ), (0:ℚ)) : V3)| |v3z (((0:ℚ), (0:ℚ), (0:ℚ)) : V3)|)
          ≤ 1 + 1/10^10) :=
  getRefLocNewton_flag_is_interior_test unitHexXv (1/2, 1/2, 1/2) (2^3)
    ⟨((0:ℚ), (0:ℚ), (0:ℚ)), true, 1, [(0:ℚ)]⟩ (by rfl)

set_option maxRecDepth 200000 in
/-- C4 counterexample: on the curved 27-node hex `curvedHexXv` with target
`(6/5, 0, 0)` the Newton iteration never converges — every computed
residual norm² stays above `tol² = (2·10⁻¹⁰)²` and the loop ends through
the stall break — yet the returned interior flag is `true`, because the
last iterate happens to lie inside `[-1,1]³`.  So "fails to converge ⟹
returns a false interior flag" is false on the code. -/
theorem getRefLocNewton_nonconverged_but_inside :
    ((getRefLocNewton curvedHexXv (6/5, 0, 0) 27).toOption.map
      (fun out => out.inside && out.normSqs.all (fun q => decide (q > (2/10^10)^2))
        && decide (out.normSqs ≠ []) && decide (out.iters = 3))).getD false = true := by
  decide

/-- C5: the transformed `getBoundingBox` variant does NOT compute the
bounding box of the matrix-transformed points.  Its inner loop
(funcs.cpp:328) reads `pts[i*nDims+d1]` — the row index — where the
matrix-vector product requires the column index `d2`, so each transformed
component is (row sum of `Smat`) × (same-index coordinate) instead of
`Smat * pts[i]`.  Concretely, for the single 2-D point `(1, 2)` and the
swap matrix `Smat = [[0,1],[1,0]]` the code produces the box of `(1, 2)`
while the transformed point is `(2, 1)`. -/
theorem getBoundingBox_smat_bug :
    getBoundingBoxSmat [1, 2] 1 2 [0, 1, 1, 0] = some [1, 2, 1, 2] ∧
    getBoundingBoxSmatSpec [1, 2] 1 2 [0, 1, 1, 0] = some [2, 1, 2, 1] ∧
    getBoundingBoxSmat [1, 2] 1 2 [0, 1, 1, 0]
      ≠ getBoundingBoxSmatSpec [1, 2] 1 2 [0, 1, 1, 0] := by
  refine ⟨by decide, by decide, by decide⟩

/-! ### C6, C10: theorems about the two tri-tri kernels -/

/-- C6 (amended): for every square-root oracle, every pair of triangles and
every tolerance, if the smallest of the nine pairwise edge-edge distances
computed by `lineSegmentDistance` is strictly below `tol`, then
`triTriDistance` returns exactly 0 (part_000:167).  The variant
`triTriDistance2` — the one the classifier calls — lacks this early return,
so the claim holds only for `triTriDistance`. -/
theorem triTriDistance_zero_on_close_edges (rsqrt : ℚ → ℚ) (T1 T2 : TriQ) (tol : ℚ)
    (h : (triEdgeMin rsqrt T1 T2).1 < tol) :
    (triTriDistance rsqrt T1 T2 tol).1 = 0 := by
  unfold triTriDistance
  rw [if_pos h]

set_option maxRecDepth 200000 in
/-- Witness for C6: two parallel unit triangles two units apart, `tol = 3`;
the edge minimum is 2 < 3 and `triTriDistance` returns 0. -/
theorem triTriDistance_zero_on_close_edges_witness :
    (triEdgeMin ratSqrt triEx1 triEx2).1 < 3 ∧
    (triTriDistance ratSqrt triEx1 triEx2 3).1 = 0 :=
  ⟨by decide, triTriDistance_zero_on_close_edges ratSqrt triEx1 triEx2 3 (by decide)⟩

set_option maxRecDepth 200000 in
/-- C6 counterexample: on the same input — edge minimum 2, `tol = 3`, all
square roots exact — `triTriDistance2` returns the distance 2, not 0: it has
no `dist < tol` early return after the edge sweep. -/
theorem triTriDistance2_nonzero_despite_close_edges :
    (triEdgeMin ratSqrt triEx1 triEx2).1 < 3 ∧
    (triTriDistance2 ratSqrt triEx1 triEx2 3).1 = 2 := by
  exact ⟨by decide, by decide⟩

/-- C10 (amended): the two kernels return the same distance AND the same
separation vector whenever the nine-edge minimum is not below `tol` — their
computations after the edge sweep are line-for-line identical, and only the
`dist < tol` early return of `triTriDistance` distinguishes them. -/
theorem triTri_variants_agree_above_edge_min (rsqrt : ℚ → ℚ) (T1 T2 : TriQ) (tol : ℚ)
    (h : ¬ (triEdgeMin rsqrt T1 T2).1 < tol) :
    triTriDistance rsqrt T1 T2 tol = triTriDistance2 rsqrt T1 T2 tol := by
  unfold triTriDistance triTriDistance2
  rw [if_neg h]

set_option maxRecDepth 200000 in
/-- Witness for C10: same triangles with `tol = 1` (edge minimum 2 ≥ 1);
both kernels return the same pair. -/
theorem triTri_variants_agree_above_edge_min_witness :
    ¬ (triEdgeMin ratSqrt triEx1 triEx2).1 < 1 ∧
    triTriDistance ratSqrt triEx1 triEx2 1 = triTriDistance2 ratSqrt triEx1 triEx2 1 :=
  ⟨by decide, triTri_variants_agree_above_edge_min ratSqrt triEx1 triEx2 1 (by decide)⟩

set_option maxRecDepth 200000 in
/-- C10 counterexample: with `tol = 3` the two kernels disagree on the very
same input (`triTriDistance` returns 0 through its early return,
`triTriDistance2` returns 2), so they are not equivalent as claimed. -/
theorem triTri_variants_differ_at_close_edges :
    triTriDistance ratSqrt triEx1 triEx2 3 ≠ triTriDistance2 ratSqrt triEx1 triEx2 3 := by
  decide

/-! ### C7: CUT is terminal within one classification pass -/

lemma fillCutStep_skip (cutType : ℤ) (btol dtol : ℚ) (s : CutState) (f : FacetEval)
    (h : s.flag = DC_CUT) : fillCutStep cutType btol dtol s f = s := by
  unfold fillCutStep
  rw [if_pos h]

lemma fillCutStep_sets_cut (cutType : ℤ) (btol dtol : ℚ) (s : CutState) (f : FacetEval)
    (hb : f.bboxOK = true) (hd : f.dist < 1/10^8 * btol) :
    (fillCutStep cutType btol dtol s f).flag = DC_CUT := by
  by_cases h : s.flag = DC_CUT
  · rw [fillCutStep_skip cutType btol dtol s f h]
    exact h
  · simp only [fillCutStep]
    rw [if_neg h, if_pos hb, if_pos hd]

lemma fillCutFold_skip (cutType : ℤ) (btol dtol : ℚ) :
    ∀ (L : List FacetEval) (s : CutState), s.flag = DC_CUT →
      L.foldl (fillCutStep cutType btol dtol) s = s := by
  intro L
  induction L with
  | nil => intro s _; rfl
  | cons g L ih =>
    intro s h
    rw [List.foldl_cons, fillCutStep_skip cutType btol dtol s g h]
    exact ih s h

/-- C7: during the classification of one element in `fillCutMap`, as soon
as any facet whose bounding-box test passes yields a distance below
`1e-8·btol`, the accumulator flag becomes `CUT`; every facet processed
afterwards leaves the accumulator entirely unchanged (the loop body
short-circuits on `flag == CUT`), so the element's final output flag is
`CUT` — no later facet can overwrite it within the pass. -/
theorem fillCutMap_cut_sticky (cutType : ℤ) (btol : ℚ) (pre post : List FacetEval)
    (f : FacetEval) (hb : f.bboxOK = true) (hd : f.dist < 1/10^8 * btol) :
    fillCutMapElem cutType btol (pre ++ f :: post) = DC_CUT ∧
    (∀ (s : CutState) (g : FacetEval), s.flag = DC_CUT →
        fillCutStep cutType btol (1/1000 * btol) s g = s) := by
  constructor
  · unfold fillCutMapElem
    rw [List.foldl_append, List.foldl_cons]
    have hcut := fillCutStep_sets_cut cutType btol (1/1000 * btol)
      (pre.foldl (fillCutStep cutType btol (1/1000 * btol)) initCutState) f hb hd
    rw [fillCutFold_skip cutType btol (1/1000 * btol) post _ hcut]
    exact hcut
  · exact fun s g h => fillCutStep_skip cutType btol (1/1000 * btol) s g h

/-- Witness for C7: a single intersecting facet (distance 0, overlapping
boxes) classifies the element as `CUT`. -/
theorem fillCutMap_cut_sticky_witness :
    fillCutMapElem 1 1 [⟨true, 0, ((0:ℚ), (0:ℚ), (1:ℚ)), ((0:ℚ), (0:ℚ), (1:ℚ))⟩] = DC_CUT :=
  (fillCutMap_cut_sticky 1 1 [] []
    ⟨true, 0, ((0:ℚ), (0:ℚ), (1:ℚ)), ((0:ℚ), (0:ℚ), (1:ℚ))⟩ rfl (by decide)).1

/-! ### C8: the failure contract of shape_hex -/

lemma structured_to_gmsh_hex_of_cube (n : ℕ)
    (hc : natCbrt n * natCbrt n * natCbrt n = n) :
    structured_to_gmsh_hex n = .ok (reverse_map (ghexSide (natCbrt n))) := by
  unfold structured_to_gmsh_hex gmsh_to_structured_hex
  rw [if_pos hc]
  rfl

/-- C8 (amended): `shape_hex` fails with an error if and only if `nNodes`
is neither 20 nor the cube of its truncated integer cube root — that is,
neither 20 nor a perfect cube `s³` for ANY `s ≥ 0`.  In particular the
degenerate cubes `n = 0` and `n = 1` are accepted, which the claim's
"`(p+1)³` for some `p ≥ 1`" excludes.  For `n = 20` the closed-form
serendipity basis `shape20` is returned without consulting the ordering
maps. -/
theorem shape_hex_error_characterisation (rst : ℚ × ℚ × ℚ) (n : ℕ) :
    ((shape_hex rst n).isOk = false
        ↔ ¬(n = 20 ∨ natCbrt n * natCbrt n * natCbrt n = n)) ∧
    shape_hex rst 20 = .ok (shape20 rst.1 rst.2.1 rst.2.2) := by
  have h20 : shape_hex rst 20 = .ok (shape20 rst.1 rst.2.1 rst.2.2) := by
    unfold shape_hex
    rw [if_pos rfl]
  refine ⟨?_, h20⟩
  by_cases hn20 : n = 20
  · subst hn20
    rw [h20]
    simp [Except.isOk, Except.toBool]
  · by_cases hc : natCbrt n * natCbrt n * natCbrt n = n
    · have hok : shape_hex rst n
          = .ok ((List.range n).foldl
              (fun out pt =>
                out.set ((reverse_map (ghexSide (natCbrt n))).getD pt 0)
                  (Lagrange (xlistQ (natCbrt n)) rst.1 (pt % natCbrt n) *
                   Lagrange (xlistQ (natCbrt n)) rst.2.1 (pt / natCbrt n % natCbrt n) *
                   Lagrange (xlistQ (natCbrt n)) rst.2.2 (pt / natCbrt n / natCbrt n)))
              (List.replicate n 0)) := by
        unfold shape_hex
        rw [if_neg hn20, if_pos hc, structured_to_gmsh_hex_of_cube n hc]
      rw [hok]
      simp [Except.isOk, Except.toBool, hn20, hc]
    · have herr : shape_hex rst n
          = .error "For Lagrange hex of order N, must have (N+1)^3 shape points." := by
        unfold shape_hex
        rw [if_neg hn20, if_neg hc]
      rw [herr]
      simp [Except.isOk, Except.toBool, hn20, hc]

/-- C8 counterexample: `nNodes = 1` is neither 20 nor `(p+1)³` for any
`p ≥ 1`, yet `shape_hex` succeeds on it (the `cbrt` check passes with
`nSide = 1`), so the claimed "if and only if" is false as stated. -/
theorem shape_hex_accepts_one :
    (shape_hex ((0:ℚ), (0:ℚ), (0:ℚ)) 1).isOk = true ∧
    (1 : ℕ) ≠ 20 ∧ (∀ p : ℕ, 1 ≤ p → (p+1)^3 ≠ 1) := by
  refine ⟨by rfl, by norm_num, ?_⟩
  intro p hp he
  have h2 : 2 ≤ p + 1 := by omega
  have h8 : 2^3 ≤ (p+1)^3 := Nat.pow_le_pow_left h2 3
  rw [he] at h8
  norm_num at h8

end tg_funcs
